import Mathlib

/-! # Interpolator2D: a bilinear interpolator over a rectangular grid

A shallow embedding of `src/interpolator2D.c` (the four lifecycle operations
`Interpolator2DCreate`, `Interpolator2DInitialize`, `Interpolator2DCalculate`,
`Interpolator2DDestroy`) together with the numerical routines it delegates to.

Conventions of the embedding.

* A C `double` is an element of an arbitrary linearly ordered field `K`
  (instantiate `K := ℚ` to run the definitions); rounding is not modelled.
  The only non-finite double the code can produce, `GSL_NAN`, is the `none` of
  `Option K` in the one place where it can arise (the evaluated value).
* A heap buffer is a `List K`; a pointer or handle field is an `Option`, with
  `none` for `NULL`.  Writing `p[i] = v` is `List.set`, reading `p[i]` is
  `List.getD`.  Reads and writes outside a buffer and dereferences of `NULL`
  are undefined in C; the definitions are total there, and the theorems assume
  or establish the well-formedness conditions under which they do not occur.
* A library routine that raises an error returns its error status (and leaves
  its output untouched); the source discards these statuses.
* `uint32_t` arithmetic is taken modulo `2^32`, `size_t` arithmetic modulo `2^64`.
-/

namespace Interp2D

set_option linter.unusedSectionVars false

variable {K : Type} [LinearOrderedField K]

/-! ## Library routines -/

/-- Status code of a library call that succeeded. -/
def GSL_SUCCESS : Int := 0

/-- Status code: input domain error (a query outside the interpolation range). -/
def GSL_EDOM : Int := 1

/-- Status code: output range error (an index outside the grid). -/
def GSL_ERANGE : Int := 2

/-- Status code: invalid argument. -/
def GSL_EINVAL : Int := 4

/-- Modelled from the spec: the vector accessor of the numerics library the source
delegates to (not part of the sources).  A vector is the sequence of its elements
(section 4.1: "`xs` (sequence of `nx` doubles)"); an index outside it yields `0`. -/
def gsl_vector_get (v : List K) (i : Nat) : K :=
  v.getD i 0

/-- Modelled from the spec: the matrix accessor of the numerics library (not part of
the sources).  A matrix is the list of its rows; `gsl_matrix_get m i j` is the entry in
row `i`, column `j` (section 4.1: "value at row `j`, column `i`"), and `0` outside. -/
def gsl_matrix_get (m : List (List K)) (i j : Nat) : K :=
  (m.getD i []).getD j 0

/-- Modelled from the spec: the per-axis lookup accelerator of section 3 and 4.2
(the library type `gsl_interp_accel`, not part of the sources): the cached index of
the last located interval, with the hit and miss counters. -/
structure gsl_interp_accel where
  cache : Nat
  miss_count : Nat
  hit_count : Nat
deriving DecidableEq

/-- Modelled from the spec: a new accelerator (library routine
`gsl_interp_accel_alloc`, not part of the sources) starts at the initial cached
index `0` with cleared counters. -/
def gsl_interp_accel_alloc : gsl_interp_accel :=
  { cache := 0, miss_count := 0, hit_count := 0 }

/-- Modelled from the spec: the binary search of section 4.2 ("fall back to binary
search over `coords` to find the enclosing interval"; library routine
`gsl_interp_bsearch`, not part of the sources).  It narrows `[index_lo, index_hi]`
by halving while the bounds are more than one apart and returns the lower bound. -/
def gsl_interp_bsearch (x_array : List K) (x : K) (index_lo index_hi : Nat) : Nat :=
  if index_hi > index_lo + 1 then
    let i := (index_hi + index_lo) / 2
    if x_array.getD i 0 > x then gsl_interp_bsearch x_array x index_lo i
    else gsl_interp_bsearch x_array x i index_hi
  else index_lo
termination_by index_hi - index_lo
decreasing_by all_goals simp_wf; omega

/-- Modelled from the spec: `locate(coords, cached_index, q)` of section 4.2 (library
routine `gsl_interp_accel_find`, not part of the sources): "first test whether `q`
still lies in the cached interval `[coords[cached_index], coords[cached_index+1])`;
if so, return it directly.  Otherwise fall back to binary search over `coords` ...,
update the cache to that index, and return it".  The search below the cached interval
runs over `[0, cached_index]`, the one above it over `[cached_index, len - 1]`. -/
def gsl_interp_accel_find (a : gsl_interp_accel) (xa : List K) (len : Nat) (x : K) :
    Nat × gsl_interp_accel :=
  let x_index := a.cache
  if x < xa.getD x_index 0 then
    let c := gsl_interp_bsearch xa x 0 x_index
    (c, { a with miss_count := a.miss_count + 1, cache := c })
  else if x ≥ xa.getD (x_index + 1) 0 then
    let c := gsl_interp_bsearch xa x x_index (len - 1)
    (c, { a with miss_count := a.miss_count + 1, cache := c })
  else
    (a.cache, { a with hit_count := a.hit_count + 1 })

/-- Modelled from the spec: the interpolation object of the numerics library
(`gsl_spline2d`, not part of the sources): the grid dimensions, the bounding box fixed
at initialization, and the library's own copies of the three data arrays.  `zarr`
holds the value of node (x-index `i`, y-index `j`) at position `j * xsize + i`. -/
structure gsl_spline2d (K : Type) where
  xsize : Nat
  ysize : Nat
  xmin : K
  xmax : K
  ymin : K
  ymax : K
  xarr : List K
  yarr : List K
  zarr : List K

/-- Modelled from the spec: position of node (x-index `i`, y-index `j`) in the value
array (section 3: "`z`: `nx`×`ny` table ..., indexed by (x-index, y-index)"). -/
def IDX2D (i j xsize : Nat) : Nat :=
  j * xsize + i

/-- Modelled from the spec: allocation of the interpolation object (library routine
`gsl_spline2d_alloc`, not part of the sources).  Section 4.1: create "allocates three
buffers sized `nx`, `ny`, and `nx*ny` respectively, plus axis-accelerator state"; the
source assumes that this allocation does not fail (comment at line 101 of
interpolator2D.c), so an object is always produced.  Its arrays start zeroed. -/
def gsl_spline2d_alloc (xsize ysize : Nat) : Option (gsl_spline2d K) :=
  some
    { xsize := xsize, ysize := ysize, xmin := 0, xmax := 0, ymin := 0, ymax := 0,
      xarr := List.replicate xsize 0, yarr := List.replicate ysize 0,
      zarr := List.replicate (xsize * ysize) 0 }

/-- Modelled from the spec: store the value of grid node (x-index `i`, y-index `j`)
(library routine `gsl_spline2d_set`, not part of the sources).  Section 3:
"`z[i][j] = f(x[i], y[j])`" with `i` an x-index and `j` a y-index.  An index outside
the grid is a range error: the status is returned and nothing is written. -/
def gsl_spline2d_set (interp : gsl_spline2d K) (zarr : List K) (i j : Nat) (z : K) :
    Int × List K :=
  if i ≥ interp.xsize then (GSL_ERANGE, zarr)
  else if j ≥ interp.ysize then (GSL_ERANGE, zarr)
  else (GSL_SUCCESS, zarr.set (IDX2D i j interp.xsize) z)

/-- Copy `n` elements from the start of `src` over the start of `dst`. -/
def memcpy (dst src : List K) (n : Nat) : List K :=
  src.take n ++ dst.drop n

/-- Whether some adjacent pair among the first `size` elements fails to increase. -/
def notStrictlyIncreasing (arr : List K) (size : Nat) : Bool :=
  (List.range' 1 (size - 1)).any (fun i => decide (arr.getD (i - 1) 0 ≥ arr.getD i 0))

/-- Modelled from the spec: (re)initialization of the interpolation object (library
routine `gsl_spline2d_init`, not part of the sources): the object validates the
sizes and the strict increase of both axes, records the bounding box, and takes its own
copies of the three arrays (section 6: "it owns independent copies").  It does not
touch any accelerator: none is passed to it. -/
def gsl_spline2d_init (interp : gsl_spline2d K) (xarr yarr zarr : List K)
    (xsize ysize : Nat) : Int × gsl_spline2d K :=
  let checked : Int × gsl_spline2d K :=
    if xsize ≠ interp.xsize ∨ ysize ≠ interp.ysize then (GSL_EINVAL, interp)
    else if notStrictlyIncreasing xarr xsize then (GSL_EINVAL, interp)
    else if notStrictlyIncreasing yarr ysize then (GSL_EINVAL, interp)
    else (GSL_SUCCESS,
      { interp with
        xmin := xarr.getD 0 0, xmax := xarr.getD (xsize - 1) 0,
        ymin := yarr.getD 0 0, ymax := yarr.getD (ysize - 1) 0 })
  (checked.1,
    { checked.2 with
      xarr := memcpy checked.2.xarr xarr xsize,
      yarr := memcpy checked.2.yarr yarr ysize,
      zarr := memcpy checked.2.zarr zarr (xsize * ysize) })

/-- One axis lookup of the bilinear kernel: through the accelerator when there is one,
by a plain binary search over the whole axis otherwise. -/
def axis_find (acc : Option gsl_interp_accel) (arr : List K) (size : Nat) (q : K) :
    Nat × Option gsl_interp_accel :=
  match acc with
  | some a => ((gsl_interp_accel_find a arr size q).1, some (gsl_interp_accel_find a arr size q).2)
  | none => (gsl_interp_bsearch arr q 0 (size - 1), none)

/-- The bilinear formula of section 4.1 step 2 and 3 on the cell with lower-left node
(`xi`, `yi`). -/
def bilinear_formula (xarr yarr zarr : List K) (xsize : Nat) (xi yi : Nat) (x y : K) : K :=
  let xmin := xarr.getD xi 0
  let xmax := xarr.getD (xi + 1) 0
  let ymin := yarr.getD yi 0
  let ymax := yarr.getD (yi + 1) 0
  let zminmin := zarr.getD (IDX2D xi yi xsize) 0
  let zminmax := zarr.getD (IDX2D xi (yi + 1) xsize) 0
  let zmaxmin := zarr.getD (IDX2D (xi + 1) yi xsize) 0
  let zmaxmax := zarr.getD (IDX2D (xi + 1) (yi + 1) xsize) 0
  let dx := xmax - xmin
  let dy := ymax - ymin
  let t := (x - xmin) / dx
  let u := (y - ymin) / dy
  (1 - t) * (1 - u) * zminmin + t * (1 - u) * zmaxmin + (1 - t) * u * zminmax + t * u * zmaxmax

/-- Modelled from the spec: the bilinear kernel, section 4.1 steps 1 to 4 (library
routine `bilinear_eval`, not part of the sources): locate the cell on each axis with
that axis's accelerator, then apply the bilinear formula. -/
def bilinear_eval (xarr yarr zarr : List K) (xsize ysize : Nat) (x y : K)
    (xa ya : Option gsl_interp_accel) : K × Option gsl_interp_accel × Option gsl_interp_accel :=
  let fx := axis_find xa xarr xsize x
  let fy := axis_find ya yarr ysize y
  (bilinear_formula xarr yarr zarr xsize fx.1 fy.1 x y, fx.2, fy.2)

/-- Modelled from the spec: evaluation of the interpolation object (library routine
`gsl_spline2d_eval`, not part of the sources).  A query outside the bounding box
recorded at initialization is a domain error: no lookup is made and the result is
`GSL_NAN` (`none`); otherwise the bilinear kernel runs on the object's own arrays. -/
def gsl_spline2d_eval (interp : gsl_spline2d K) (x y : K)
    (xacc yacc : Option gsl_interp_accel) :
    Option K × Option gsl_interp_accel × Option gsl_interp_accel :=
  if x < interp.xmin ∨ x > interp.xmax then (none, xacc, yacc)
  else if y < interp.ymin ∨ y > interp.ymax then (none, xacc, yacc)
  else
    let r := bilinear_eval interp.xarr interp.yarr interp.zarr interp.xsize interp.ysize
      x y xacc yacc
    (some r.1, r.2.1, r.2.2)

/-! ## The interpolator -/

/-- The instance `interpolator_2d_t` of `interpolator2D.h`: the three owned buffers,
the dimensions, and the handles of the interpolation object and of the two
accelerators.  (The field `T` is the constant bilinear kernel and is left out.) -/
structure interpolator_2d_t (K : Type) where
  x : Option (List K)
  y : Option (List K)
  z : Option (List K)
  nx : Nat
  ny : Nat
  spline : Option (gsl_spline2d K)
  xacc : Option gsl_interp_accel
  yacc : Option gsl_interp_accel

/-- Size of a `double` in bytes. -/
def sizeof_double : Nat := 8

/-- Outcome of `malloc(size)`: `heap` is what the allocator has to offer, `none` when
the allocation fails, otherwise the (arbitrary) previous contents of the memory
handed out.  A successful allocation is a buffer of `size / 8` doubles. -/
def malloc (heap : Option (List K)) (size : Nat) : Option (List K) :=
  heap.map (fun g => (List.range (size / sizeof_double)).map (fun k => g.getD k 0))

/-- Bytes requested for an axis buffer, `n * sizeof( double )`: the `uint32_t`
operand is converted to `size_t` before the multiplication. -/
def axis_bytes (n : Nat) : Nat :=
  (n * sizeof_double) % 2 ^ 64

/-- Bytes requested for the value buffer, `nx * ny * sizeof( double )`: the product
`nx * ny` is formed in `uint32_t`, then converted to `size_t`. -/
def z_bytes (nx ny : Nat) : Nat :=
  (((nx * ny) % 2 ^ 32) * sizeof_double) % 2 ^ 64

/-- `Interpolator2DCreate` (interpolator2D.c, lines 70 to 133).  `hx`, `hy`, `hz` are the
outcomes the allocator has for the three `malloc` calls, in order; `nx` and `ny` are
`uint32_t` values (below `2^32`). -/
def Interpolator2DCreate (self : interpolator_2d_t K) (hx hy hz : Option (List K))
    (nx ny : Nat) : Bool × interpolator_2d_t K :=
  let self0 := { self with x := none, y := none, z := none }
  let self1 := { self0 with x := malloc hx (axis_bytes nx) }
  let alloc : Bool × interpolator_2d_t K :=
    if self1.x.isNone then (false, self1)
    else
      let self2 := { self1 with y := malloc hy (axis_bytes ny) }
      if self2.y.isNone then (false, self2)
      else
        let self3 := { self2 with z := malloc hz (z_bytes nx ny) }
        if self3.z.isNone then (false, self3)
        else (true, self3)
  if alloc.1 = true then
    (alloc.1,
      { alloc.2 with
        spline := gsl_spline2d_alloc nx ny,
        xacc := some gsl_interp_accel_alloc,
        yacc := some gsl_interp_accel_alloc,
        nx := nx,
        ny := ny })
  else
    (alloc.1, { alloc.2 with x := none, y := none, z := none })

/-- One of the two axis loops of `Interpolator2DInitialize` (lines 147 to 158 for `x`,
162 to 173 for `y`): element `0` is stored unconditionally; element `i ≥ 1` is stored
when it exceeds the stored element `i - 1`, and otherwise `ret` becomes `false` and the
buffer keeps what it held at `i`. -/
def Interpolator2DInitialize_axis (v : List K) (n : Nat) (ret : Bool) (buf : List K) :
    Bool × List K :=
  (List.range' 1 (n - 1)).foldl
    (fun st i =>
      let buffer := gsl_vector_get v i
      if buffer > st.2.getD (i - 1) 0 then (st.1, st.2.set i buffer)
      else (false, st.2))
    (ret, buf.set 0 (gsl_vector_get v 0))

/-- The copy loop of `Interpolator2DInitialize` (lines 178 to 186): for `i < ny` and
`j < nx`, the matrix entry in row `i`, column `j` is passed to `gsl_spline2d_set` with
the indices `i`, `j` in this order; the returned status is discarded. -/
def Interpolator2DInitialize_copy (spline : gsl_spline2d K) (z : List (List K))
    (nx ny : Nat) (zbuf : List K) : List K :=
  (List.range ny).foldl
    (fun zb i =>
      (List.range nx).foldl
        (fun zb j => (gsl_spline2d_set spline zb i j (gsl_matrix_get z i j)).2)
        zb)
    zbuf

/-- `Interpolator2DInitialize` (interpolator2D.c, lines 135 to 195). -/
def Interpolator2DInitialize (self : interpolator_2d_t K) (x y : List K)
    (z : List (List K)) : Bool × interpolator_2d_t K :=
  match self.x, self.y, self.z, self.spline with
  | some bx, some by_, some bz, some sp =>
    let lx := Interpolator2DInitialize_axis x self.nx true bx
    let ly := Interpolator2DInitialize_axis y self.ny lx.1 by_
    let ret := ly.1
    if ret = true then
      let bz1 := Interpolator2DInitialize_copy sp z self.nx self.ny bz
      let sp1 := (gsl_spline2d_init sp lx.2 ly.2 bz1 self.nx self.ny).2
      (ret, { self with x := some lx.2, y := some ly.2, z := some bz1, spline := some sp1 })
    else
      (ret, { self with x := some lx.2, y := some ly.2 })
  | _, _, _, _ => (false, self)

/-- The `uint32_t` subtraction `n - 1`. -/
def u32_pred (n : Nat) : Nat :=
  (n + 2 ^ 32 - 1) % 2 ^ 32

/-- `Interpolator2DCalculate` (interpolator2D.c, lines 198 to 217).  `z` is what the
caller's output variable holds before the call; the result is the returned flag, what
the output variable holds afterwards, and the instance afterwards. -/
def Interpolator2DCalculate (self : interpolator_2d_t K) (x y : K) (z : Option K) :
    Bool × Option K × interpolator_2d_t K :=
  match self.x, self.y, self.spline with
  | some bx, some by_, some sp =>
    if x ≥ bx.getD 0 0 ∧ x ≤ bx.getD (u32_pred self.nx) 0 ∧
        y ≥ by_.getD 0 0 ∧ y ≤ by_.getD (u32_pred self.ny) 0 then
      let r := gsl_spline2d_eval sp x y self.xacc self.yacc
      (true, r.1, { self with xacc := r.2.1, yacc := r.2.2 })
    else
      (false, z, self)
  | _, _, _ => (false, z, self)

/-- `Interpolator2DDestroy` (interpolator2D.c, lines 219 to 240). -/
def Interpolator2DDestroy (self : interpolator_2d_t K) : Bool × interpolator_2d_t K :=
  (true, { self with spline := none, xacc := none, yacc := none,
                     x := none, y := none, z := none })

/-! ## Specification vocabulary -/

/-- An axis is strictly increasing: every element exceeds its predecessor. -/
def StrictlyIncreasing (v : List K) : Prop :=
  ∀ i, i + 1 < v.length → v.getD i 0 < v.getD (i + 1) 0

/-- A created grid: the three buffers are allocated with `nx`, `ny` and `nx * ny`
entries (any contents), the interpolation object exists with the same dimensions, and
the dimensions are `uint32_t` values. -/
structure Created (s : interpolator_2d_t K) : Prop where
  x_buf : ∃ bx, s.x = some bx ∧ bx.length = s.nx
  y_buf : ∃ by_, s.y = some by_ ∧ by_.length = s.ny
  z_buf : ∃ bz, s.z = some bz ∧ bz.length = s.nx * s.ny
  spline_obj : ∃ sp, s.spline = some sp ∧ sp.xsize = s.nx ∧ sp.ysize = s.ny ∧
    sp.xarr.length = s.nx ∧ sp.yarr.length = s.ny ∧ sp.zarr.length = s.nx * s.ny
  nx_lt : s.nx < 2 ^ 32
  ny_lt : s.ny < 2 ^ 32

/-- An accelerator handle is usable on an axis of `n` nodes: it is `NULL` (plain binary
search) or its cached index designates a cell, `cache ≤ n - 2`. -/
def AccOK (acc : Option gsl_interp_accel) (n : Nat) : Prop :=
  ∀ a, acc = some a → a.cache + 2 ≤ n

/-- A successfully initialized grid holding the axes `bx`, `by_` and the values `bz`:
the state `Interpolator2DInitialize` leaves on success and `Interpolator2DCalculate`
maintains. -/
structure Initialized (s : interpolator_2d_t K) (bx by_ bz : List K) : Prop where
  hx : s.x = some bx
  hy : s.y = some by_
  hz : s.z = some bz
  nx_ge : 2 ≤ s.nx
  ny_ge : 2 ≤ s.ny
  nx_lt : s.nx < 2 ^ 32
  ny_lt : s.ny < 2 ^ 32
  x_len : bx.length = s.nx
  y_len : by_.length = s.ny
  z_len : bz.length = s.nx * s.ny
  x_inc : StrictlyIncreasing bx
  y_inc : StrictlyIncreasing by_
  hspline : s.spline = some
    { xsize := s.nx, ysize := s.ny,
      xmin := bx.getD 0 0, xmax := bx.getD (s.nx - 1) 0,
      ymin := by_.getD 0 0, ymax := by_.getD (s.ny - 1) 0,
      xarr := bx, yarr := by_, zarr := bz }
  xacc_ok : AccOK s.xacc s.nx
  yacc_ok : AccOK s.yacc s.ny

/-- The cell `i` of an axis of `n` nodes encloses `q`: `coord[i] ≤ q < coord[i+1]`, the
topmost node `coord[n-1]` belonging to the last cell `n - 2`. -/
def CellOf (coord : List K) (n : Nat) (q : K) (i : Nat) : Prop :=
  i + 2 ≤ n ∧ coord.getD i 0 ≤ q ∧
    (q < coord.getD (i + 1) 0 ∨ (q = coord.getD (n - 1) 0 ∧ i + 2 = n))

/-- The query passes the range check of `Interpolator2DCalculate` on the axes `bx`,
`by_`. -/
def InRange (bx by_ : List K) (qx qy : K) : Prop :=
  bx.getD 0 0 ≤ qx ∧ qx ≤ bx.getD (bx.length - 1) 0 ∧
    by_.getD 0 0 ≤ qy ∧ qy ≤ by_.getD (by_.length - 1) 0

/-- Issue the queries `qs` in order on the same instance, with one output variable
reused across the calls (as the test loops do); the result lists, per query, the
returned flag and what the output variable holds after the call. -/
def runQueries (s : interpolator_2d_t K) (z : Option K) :
    List (K × K) → List (Bool × Option K)
  | [] => []
  | q :: qs =>
    let r := Interpolator2DCalculate s q.1 q.2 z
    (r.1, r.2.1) :: runQueries r.2.2 r.2.1 qs

/-- The instance after the queries `qs` have been issued in order. -/
def afterQueries (s : interpolator_2d_t K) (z : Option K) :
    List (K × K) → interpolator_2d_t K
  | [] => s
  | q :: qs =>
    let r := Interpolator2DCalculate s q.1 q.2 z
    afterQueries r.2.2 r.2.1 qs

/-- The index pairs `(i, j)` with which the copy loop of `Interpolator2DInitialize`
calls `gsl_matrix_get` and `gsl_spline2d_set`, in order. -/
def copyLoopIndices (nx ny : Nat) : List (Nat × Nat) :=
  (List.range ny).flatMap (fun i => (List.range nx).map (fun j => (i, j)))

/-- The bilinear combination of section 4.1 step 3, written as in the specification:
`z00*(1-tx)*(1-ty) + z10*tx*(1-ty) + z01*(1-tx)*ty + z11*tx*ty`. -/
def spec_bilinear (z00 z10 z01 z11 tx ty : K) : K :=
  z00 * (1 - tx) * (1 - ty) + z10 * tx * (1 - ty) + z01 * (1 - tx) * ty + z11 * tx * ty

/-- The fractional position of section 4.1 step 2, `(q - lo) / (hi - lo)`. -/
def spec_fraction (q lo hi : K) : K :=
  (q - lo) / (hi - lo)

/-- The stored value of node (x-index `i`, y-index `j`), the `z[i][j]` of section 3. -/
def z_node (bz : List K) (nx i j : Nat) : K :=
  bz.getD (IDX2D i j nx) 0

/-- An instance before `Interpolator2DCreate` (a concrete example over `ℚ`). -/
def demoBlank : interpolator_2d_t ℚ :=
  { x := none, y := none, z := none, nx := 0, ny := 0, spline := none,
    xacc := none, yacc := none }

/-- A created 2×2 grid whose buffers hold leftover values (a concrete example). -/
def demoCreated : interpolator_2d_t ℚ :=
  (Interpolator2DCreate demoBlank (some [7, 7]) (some [7, 7]) (some [7, 7, 7, 7]) 2 2).2

/-- A 2×2 value table: row `0` is `10, 20`, row `1` is `30, 40`. -/
def demoTable : List (List ℚ) :=
  [[10, 20], [30, 40]]

/-- The grid `x = [0, 1]`, `y = [0, 1]` initialized from `demoTable`. -/
def demoGrid : interpolator_2d_t ℚ :=
  (Interpolator2DInitialize demoCreated [0, 1] [0, 1] demoTable).2

/-- The value interpolated at `q` when each axis is searched by a cold binary search
over the whole axis, without any accelerator. -/
def coldValue (bx by_ bz : List K) (q : K × K) : K :=
  bilinear_formula bx by_ bz bx.length
    (gsl_interp_bsearch bx q.1 0 (bx.length - 1))
    (gsl_interp_bsearch by_ q.2 0 (by_.length - 1)) q.1 q.2

/-- One call described without accelerators: the flag and the content of the output
variable (which held `z` before), for the data `bx`, `by_`, `bz`. -/
def coldCalculate (bx by_ bz : List K) (z : Option K) (q : K × K) : Bool × Option K :=
  if bx.getD 0 0 ≤ q.1 ∧ q.1 ≤ bx.getD (bx.length - 1) 0 ∧
      by_.getD 0 0 ≤ q.2 ∧ q.2 ≤ by_.getD (by_.length - 1) 0 then
    (true, some (coldValue bx by_ bz q))
  else (false, z)

/-- A sequence of calls described without accelerators, the output variable reused. -/
def coldRun (bx by_ bz : List K) (z : Option K) : List (K × K) → List (Bool × Option K)
  | [] => []
  | q :: qs =>
    coldCalculate bx by_ bz z q :: coldRun bx by_ bz (coldCalculate bx by_ bz z q).2 qs

/-- A created 2×3 grid (`nx = 2`, `ny = 3`) whose buffers hold leftover values. -/
def demoCreated23 : interpolator_2d_t ℚ :=
  (Interpolator2DCreate demoBlank (some [7, 7]) (some [7, 7, 7])
    (some [7, 7, 7, 7, 7, 7]) 2 3).2

/-- A value table for the 2×3 grid, one row per `y` node and one column per `x` node. -/
def demoTable23 : List (List ℚ) :=
  [[10, 20], [30, 40], [50, 60]]

/-- The three buffers owned by an instance, to name them in a trace of heap calls. -/
inductive Buffer where
  | x
  | y
  | z
deriving DecidableEq

/-- What a run of `Interpolator2DCreate` did: the returned flag, the instance afterwards,
and the heap calls it made, in order: the `malloc` calls with the number of bytes
requested, the buffers whose allocation succeeded, and the buffers passed to `free`. -/
structure create_trace (K : Type) where
  ret : Bool
  self : interpolator_2d_t K
  requested : List (Buffer × Nat)
  allocated : List Buffer
  freed : List Buffer

/-- `Interpolator2DCreate` (interpolator2D.c, lines 70 to 133) together with the trace of
its `malloc` and `free` calls.  The flag and the instance are those of
`Interpolator2DCreate`; the trace follows the same branches. -/
def Interpolator2DCreate_traced (self : interpolator_2d_t K) (hx hy hz : Option (List K))
    (nx ny : Nat) : create_trace K :=
  let self0 := { self with x := none, y := none, z := none }
  let self1 := { self0 with x := malloc hx (axis_bytes nx) }
  let alloc : create_trace K :=
    if self1.x.isNone then
      { ret := false, self := self1, requested := [(Buffer.x, axis_bytes nx)],
        allocated := [], freed := [] }
    else
      let self2 := { self1 with y := malloc hy (axis_bytes ny) }
      if self2.y.isNone then
        { ret := false, self := self2,
          requested := [(Buffer.x, axis_bytes nx), (Buffer.y, axis_bytes ny)],
          allocated := [Buffer.x], freed := [] }
      else
        let self3 := { self2 with z := malloc hz (z_bytes nx ny) }
        if self3.z.isNone then
          { ret := false, self := self3,
            requested := [(Buffer.x, axis_bytes nx), (Buffer.y, axis_bytes ny),
              (Buffer.z, z_bytes nx ny)],
            allocated := [Buffer.x, Buffer.y], freed := [] }
        else
          { ret := true, self := self3,
            requested := [(Buffer.x, axis_bytes nx), (Buffer.y, axis_bytes ny),
              (Buffer.z, z_bytes nx ny)],
            allocated := [Buffer.x, Buffer.y, Buffer.z], freed := [] }
  if alloc.ret = true then
    { alloc with
      self :=
        { alloc.self with
          spline := gsl_spline2d_alloc nx ny,
          xacc := some gsl_interp_accel_alloc,
          yacc := some gsl_interp_accel_alloc,
          nx := nx,
          ny := ny } }
  else
    { alloc with
      self := { alloc.self with x := none, y := none, z := none },
      freed :=
        (if alloc.self.x.isSome then [Buffer.x] else []) ++
        (if alloc.self.y.isSome then [Buffer.y] else []) ++
        (if alloc.self.z.isSome then [Buffer.z] else []) }

/-- The sample function `_Function1` of the tests (test_interpolator2D.c, lines 516 to
519), `lon * exp( -( lon * lon ) - ( lat * lat ) )`; the exponential of the C library is
the parameter `exp`. -/
def _Function1 (exp : K → K) (lon lat : K) : K :=
  lon * exp (-(lon * lon) - (lat * lat))

/-- A created 3×3 grid whose buffers hold leftover values (a concrete example). -/
def demoCreated33 : interpolator_2d_t ℚ :=
  (Interpolator2DCreate demoBlank (some [7, 7, 7]) (some [7, 7, 7])
    (some [7, 7, 7, 7, 7, 7, 7, 7, 7]) 3 3).2

/-- A 3×3 value table. -/
def demoTable33 : List (List ℚ) :=
  [[1, 2, 3], [4, 5, 6], [7, 8, 9]]

/-- The grid `x = [0, 1, 2]`, `y = [0, 1, 2]` initialized from `demoTable33`. -/
def demoGrid33 : interpolator_2d_t ℚ :=
  (Interpolator2DInitialize demoCreated33 [0, 1, 2] [0, 1, 2] demoTable33).2

/-- Another created 2×3 grid (`nx = 2`, `ny = 3`), whose buffers hold other leftover
values. -/
def demoCreated23b : interpolator_2d_t ℚ :=
  (Interpolator2DCreate demoBlank (some [8, 8]) (some [8, 8, 8])
    (some [8, 8, 8, 8, 8, 8]) 2 3).2

/-- A first value table for the 2×3 grid (dataset `A`). -/
def demoTable23A : List (List ℚ) :=
  [[1, 2], [3, 4], [5, 6]]

/-! ## Buffers -/

theorem getD_set_eq (l : List K) (i j : Nat) (a : K) :
    (l.set i a).getD j 0 = if i = j ∧ i < l.length then a else l.getD j 0 := by
  simp only [List.getD_eq_getElem?_getD, List.getElem?_set]
  by_cases h : i = j
  · subst h
    by_cases h2 : i < l.length
    · simp [h2]
    · simp [h2, List.getElem?_eq_none (Nat.le_of_not_lt h2)]
  · simp [h]

theorem list_eq_of_getD (l1 l2 : List K) (hlen : l1.length = l2.length)
    (h : ∀ i, i < l1.length → l1.getD i 0 = l2.getD i 0) : l1 = l2 := by
  apply List.ext_getElem hlen
  intro n h1 h2
  have := h n h1
  rwa [List.getD_eq_getElem _ _ h1, List.getD_eq_getElem _ _ h2] at this

theorem memcpy_full (dst src : List K) (n : Nat) (hs : src.length = n)
    (hd : dst.length = n) : memcpy dst src n = src := by
  unfold memcpy
  rw [List.take_of_length_le (le_of_eq hs), List.drop_eq_nil_of_le (le_of_eq hd)]
  simp

/-! ## The axis loops of `Interpolator2DInitialize` -/

/-- State of an axis loop after the indices `1, ..., m` have been processed. -/
theorem axis_loop_inv (v buf : List K) (ret : Bool) (m : Nat) (hm : m + 1 ≤ buf.length) :
    let st := (List.range' 1 m).foldl
      (fun (st : Bool × List K) i =>
        let buffer := gsl_vector_get v i
        if buffer > st.2.getD (i - 1) 0 then (st.1, st.2.set i buffer)
        else (false, st.2))
      (ret, buf.set 0 (gsl_vector_get v 0))
    st.2.length = buf.length ∧
    (st.1 = true ↔ (ret = true ∧ ∀ i, i + 1 ≤ m → v.getD i 0 < v.getD (i + 1) 0)) ∧
    ((∀ i, i + 1 ≤ m → v.getD i 0 < v.getD (i + 1) 0) →
      ∀ i, i ≤ m → st.2.getD i 0 = v.getD i 0) ∧
    (∀ i, m < i → st.2.getD i 0 = buf.getD i 0) ∧
    st.2.getD 0 0 = v.getD 0 0 := by
  induction m with
  | zero =>
    simp only [List.range'_zero, List.foldl_nil, List.length_set, gsl_vector_get]
    have hset : (buf.set 0 (v.getD 0 0)).getD 0 0 = v.getD 0 0 := by
      rw [getD_set_eq, if_pos ⟨rfl, by omega⟩]
    refine ⟨trivial, ?_, ?_, ?_, hset⟩
    · constructor
      · intro h
        exact ⟨h, fun i hi => absurd hi (by omega)⟩
      · intro h
        exact h.1
    · intro _ i hi
      have : i = 0 := by omega
      subst this
      exact hset
    · intro i hi
      rw [getD_set_eq]
      have : ¬ (0 = i ∧ 0 < buf.length) := by omega
      rw [if_neg this]
  | succ m ih =>
    have ih := ih (by omega)
    rw [List.range'_concat, List.foldl_append]
    simp only [List.foldl_cons, List.foldl_nil, one_mul] at ih ⊢
    generalize (List.range' 1 m).foldl
      (fun (st : Bool × List K) i =>
        if gsl_vector_get v i > st.2.getD (i - 1) 0 then (st.1, st.2.set i (gsl_vector_get v i))
        else (false, st.2))
      (ret, buf.set 0 (gsl_vector_get v 0)) = st at ih ⊢
    obtain ⟨hlen, hret, hpre, hpost, h0⟩ := ih
    have hidx : 1 + m - 1 = m := by omega
    simp only [hidx, gsl_vector_get]
    by_cases hinc : ∀ i, i + 1 ≤ m → v.getD i 0 < v.getD (i + 1) 0
    · have hm' : st.2.getD m 0 = v.getD m 0 := hpre hinc m le_rfl
      rw [hm']
      by_cases hstep : v.getD (1 + m) 0 > v.getD m 0
      · rw [if_pos hstep]
        have hall : ∀ i, i + 1 ≤ m + 1 → v.getD i 0 < v.getD (i + 1) 0 := by
          intro i hi
          by_cases him : i = m
          · subst him
            rw [add_comm i 1]
            exact hstep
          · exact hinc i (by omega)
        refine ⟨by simp [hlen], ?_, ?_, ?_, ?_⟩
        · simp only [hret]
          constructor
          · intro h
            exact ⟨h.1, hall⟩
          · intro h
            exact ⟨h.1, hinc⟩
        · intro _ i hi
          rw [getD_set_eq]
          by_cases him : 1 + m = i
          · subst him
            simp
            omega
          · have : ¬ (1 + m = i ∧ 1 + m < st.2.length) := by tauto
            rw [if_neg this]
            exact hpre hinc i (by omega)
        · intro i hi
          rw [getD_set_eq]
          have : ¬ (1 + m = i ∧ 1 + m < st.2.length) := by omega
          rw [if_neg this]
          exact hpost i (by omega)
        · rw [getD_set_eq]
          have : ¬ (1 + m = 0 ∧ 1 + m < st.2.length) := by omega
          rw [if_neg this]
          exact h0
      · rw [if_neg hstep]
        refine ⟨hlen, ?_, ?_, ?_, h0⟩
        · simp only [Bool.false_eq_true, false_iff, not_and]
          intro _ hall
          apply hstep
          have := hall m le_rfl
          rw [add_comm m 1] at this
          exact this
        · intro hall
          exfalso
          apply hstep
          have := hall m le_rfl
          rw [add_comm m 1] at this
          exact this
        · intro i hi
          exact hpost i (by omega)
    · have hfalse : st.1 = false := by
        cases hst : st.1 with
        | false => rfl
        | true => exact absurd (hret.mp hst).2 hinc
      have hnall : ¬ ∀ i, i + 1 ≤ m + 1 → v.getD i 0 < v.getD (i + 1) 0 := by
        intro hall
        exact hinc (fun i hi => hall i (by omega))
      split
      · refine ⟨by simp [hlen], ?_, ?_, ?_, ?_⟩
        · simp only [hfalse, Bool.false_eq_true, false_iff, not_and]
          intro _
          exact hnall
        · intro hall
          exact absurd hall hnall
        · intro i hi
          rw [getD_set_eq]
          have : ¬ (1 + m = i ∧ 1 + m < st.2.length) := by omega
          rw [if_neg this]
          exact hpost i (by omega)
        · rw [getD_set_eq]
          have : ¬ (1 + m = 0 ∧ 1 + m < st.2.length) := by omega
          rw [if_neg this]
          exact h0
      · refine ⟨hlen, ?_, ?_, ?_, h0⟩
        · simp only [Bool.false_eq_true, false_iff, not_and]
          intro _
          exact hnall
        · intro hall
          exact absurd hall hnall
        · intro i hi
          exact hpost i (by omega)

theorem axis_length (v buf : List K) (n : Nat) (ret : Bool) (hn : 1 ≤ n)
    (hbuf : buf.length = n) : (Interpolator2DInitialize_axis v n ret buf).2.length = n := by
  have h := axis_loop_inv v buf ret (n - 1) (by omega)
  unfold Interpolator2DInitialize_axis
  rw [h.1, hbuf]

theorem axis_ret_iff (v buf : List K) (n : Nat) (ret : Bool) (hn : 1 ≤ n)
    (hbuf : buf.length = n) (hv : v.length = n) :
    (Interpolator2DInitialize_axis v n ret buf).1 = true ↔
      (ret = true ∧ StrictlyIncreasing v) := by
  have h := axis_loop_inv v buf ret (n - 1) (by omega)
  unfold Interpolator2DInitialize_axis
  rw [h.2.1]
  unfold StrictlyIncreasing
  constructor
  · rintro ⟨h1, h2⟩
    exact ⟨h1, fun i hi => h2 i (by omega)⟩
  · rintro ⟨h1, h2⟩
    exact ⟨h1, fun i hi => h2 i (by omega)⟩

theorem axis_buf_of_increasing (v buf : List K) (n : Nat) (ret : Bool) (hn : 1 ≤ n)
    (hbuf : buf.length = n) (hv : v.length = n) (hinc : StrictlyIncreasing v) :
    (Interpolator2DInitialize_axis v n ret buf).2 = v := by
  have h := axis_loop_inv v buf ret (n - 1) (by omega)
  have hlen := axis_length v buf n ret hn hbuf
  unfold Interpolator2DInitialize_axis at hlen ⊢
  apply list_eq_of_getD _ _ (by rw [hlen, hv])
  intro i hi
  exact h.2.2.1 (fun i hi => hinc i (by omega)) i (by omega)

theorem axis_head (v buf : List K) (n : Nat) (ret : Bool) (hn : 1 ≤ n)
    (hbuf : buf.length = n) :
    (Interpolator2DInitialize_axis v n ret buf).2.getD 0 0 = v.getD 0 0 := by
  have h := axis_loop_inv v buf ret (n - 1) (by omega)
  unfold Interpolator2DInitialize_axis
  exact h.2.2.2.2

/-- Contents of the buffer after an axis loop has processed the indices `1, ..., m`:
each processed position holds the input element when that element exceeded the stored
predecessor, and what the buffer held before otherwise; later positions are untouched. -/
theorem axis_loop_elements (v buf : List K) (ret : Bool) (m : Nat)
    (hm : m + 1 ≤ buf.length) :
    let st := (List.range' 1 m).foldl
      (fun (st : Bool × List K) i =>
        let buffer := gsl_vector_get v i
        if buffer > st.2.getD (i - 1) 0 then (st.1, st.2.set i buffer)
        else (false, st.2))
      (ret, buf.set 0 (gsl_vector_get v 0))
    st.2.length = buf.length ∧
    (∀ i, 1 ≤ i → i ≤ m →
      st.2.getD i 0 =
        if v.getD i 0 > st.2.getD (i - 1) 0 then v.getD i 0 else buf.getD i 0) ∧
    (∀ i, m < i → st.2.getD i 0 = buf.getD i 0) := by
  induction m with
  | zero =>
    simp only [List.range'_zero, List.foldl_nil, List.length_set, gsl_vector_get]
    refine ⟨trivial, ?_, ?_⟩
    · intro i h1 h2
      omega
    · intro i hi
      rw [getD_set_eq]
      have : ¬ (0 = i ∧ 0 < buf.length) := by omega
      rw [if_neg this]
  | succ m ih =>
    have ih := ih (by omega)
    rw [List.range'_concat, List.foldl_append]
    simp only [List.foldl_cons, List.foldl_nil, one_mul] at ih ⊢
    generalize (List.range' 1 m).foldl
      (fun (st : Bool × List K) i =>
        if gsl_vector_get v i > st.2.getD (i - 1) 0 then (st.1, st.2.set i (gsl_vector_get v i))
        else (false, st.2))
      (ret, buf.set 0 (gsl_vector_get v 0)) = st at ih ⊢
    obtain ⟨hlen, hel, hpost⟩ := ih
    have hidx : 1 + m - 1 = m := by omega
    simp only [hidx, gsl_vector_get]
    by_cases hstep : v.getD (1 + m) 0 > st.2.getD m 0
    · rw [if_pos hstep]
      have hkeep : ∀ i, i ≤ m → (st.2.set (1 + m) (v.getD (1 + m) 0)).getD i 0 =
          st.2.getD i 0 := by
        intro i hi
        rw [getD_set_eq]
        have : ¬ (1 + m = i ∧ 1 + m < st.2.length) := by omega
        rw [if_neg this]
      refine ⟨by simp [hlen], ?_, ?_⟩
      · intro i h1 h2
        by_cases him : i = 1 + m
        · subst him
          rw [hidx, hkeep m le_rfl, if_pos hstep, getD_set_eq,
            if_pos ⟨rfl, by rw [hlen]; omega⟩]
        · rw [hkeep i (by omega), hkeep (i - 1) (by omega)]
          exact hel i h1 (by omega)
      · intro i hi
        rw [getD_set_eq]
        have : ¬ (1 + m = i ∧ 1 + m < st.2.length) := by omega
        rw [if_neg this]
        exact hpost i (by omega)
    · rw [if_neg hstep]
      refine ⟨hlen, ?_, ?_⟩
      · intro i h1 h2
        by_cases him : i = 1 + m
        · subst him
          rw [hidx, if_neg hstep]
          exact hpost (1 + m) (by omega)
        · exact hel i h1 (by omega)
      · intro i hi
        exact hpost i (by omega)

/-- Contents of the buffer after a whole axis loop: position `0` holds the first input
element, and each later position holds the input element when it exceeded the stored
predecessor and its previous content otherwise. -/
theorem axis_elements (v buf : List K) (n : Nat) (ret : Bool) (hn : 1 ≤ n)
    (hbuf : buf.length = n) (i : Nat) (h1 : 1 ≤ i) (h2 : i < n) :
    (Interpolator2DInitialize_axis v n ret buf).2.getD i 0 =
      if v.getD i 0 > (Interpolator2DInitialize_axis v n ret buf).2.getD (i - 1) 0 then
        v.getD i 0
      else buf.getD i 0 := by
  have h := axis_loop_elements v buf ret (n - 1) (by omega)
  unfold Interpolator2DInitialize_axis
  exact h.2.1 i h1 (by omega)

/-- The body of `Interpolator2DInitialize` on an instance whose handles are not null. -/
theorem Initialize_eq (s : interpolator_2d_t K) (xs ys : List K) (tbl : List (List K))
    (bx by_ bz : List K) (sp : gsl_spline2d K)
    (hx : s.x = some bx) (hy : s.y = some by_) (hz : s.z = some bz)
    (hsp : s.spline = some sp) :
    Interpolator2DInitialize s xs ys tbl =
      if (Interpolator2DInitialize_axis ys s.ny
            (Interpolator2DInitialize_axis xs s.nx true bx).1 by_).1 = true then
        (true,
          { s with
            x := some (Interpolator2DInitialize_axis xs s.nx true bx).2,
            y := some (Interpolator2DInitialize_axis ys s.ny
              (Interpolator2DInitialize_axis xs s.nx true bx).1 by_).2,
            z := some (Interpolator2DInitialize_copy sp tbl s.nx s.ny bz),
            spline := some (gsl_spline2d_init sp
              (Interpolator2DInitialize_axis xs s.nx true bx).2
              (Interpolator2DInitialize_axis ys s.ny
                (Interpolator2DInitialize_axis xs s.nx true bx).1 by_).2
              (Interpolator2DInitialize_copy sp tbl s.nx s.ny bz) s.nx s.ny).2 })
      else
        (false,
          { s with
            x := some (Interpolator2DInitialize_axis xs s.nx true bx).2,
            y := some (Interpolator2DInitialize_axis ys s.ny
              (Interpolator2DInitialize_axis xs s.nx true bx).1 by_).2 }) := by
  simp only [Interpolator2DInitialize, hx, hy, hz, hsp]
  split
  · rename_i h
    simp [h]
  · rename_i h
    simp only [Bool.not_eq_true] at h
    simp [h]

/-- The flag returned by `Interpolator2DInitialize` on a created grid. -/
theorem Initialize_ret_iff (s : interpolator_2d_t K) (xs ys : List K) (tbl : List (List K))
    (hs : Created s) (hnx : 1 ≤ s.nx) (hny : 1 ≤ s.ny)
    (hxs : xs.length = s.nx) (hys : ys.length = s.ny) :
    (Interpolator2DInitialize s xs ys tbl).1 = true ↔
      (StrictlyIncreasing xs ∧ StrictlyIncreasing ys) := by
  obtain ⟨bx, hx, hxl⟩ := hs.x_buf
  obtain ⟨by_, hy, hyl⟩ := hs.y_buf
  obtain ⟨bz, hz, _⟩ := hs.z_buf
  obtain ⟨sp, hsp, _⟩ := hs.spline_obj
  rw [Initialize_eq s xs ys tbl bx by_ bz sp hx hy hz hsp]
  have hy1 := axis_ret_iff ys by_ s.ny (Interpolator2DInitialize_axis xs s.nx true bx).1
    hny hyl hys
  have hx1 := axis_ret_iff xs bx s.nx true hnx hxl hxs
  split
  · rename_i h
    simp only [true_iff]
    have := hy1.mp h
    exact ⟨(hx1.mp this.1).2, this.2⟩
  · rename_i h
    simp only [Bool.false_eq_true, false_iff]
    intro hh
    exact h (hy1.mpr ⟨hx1.mpr ⟨rfl, hh.1⟩, hh.2⟩)

/-! ## The copy loop of `Interpolator2DInitialize` -/

theorem IDX2D_lt (a b nx ny : Nat) (ha : a < nx) (hb : b < ny) : IDX2D a b nx < nx * ny := by
  unfold IDX2D
  have h1 : (b + 1) * nx ≤ ny * nx := Nat.mul_le_mul_right nx hb
  have h2 : (b + 1) * nx = b * nx + nx := by ring
  have h3 : ny * nx = nx * ny := Nat.mul_comm _ _
  omega

theorem IDX2D_inj (a b i j nx : Nat) (ha : a < nx) (hi : i < nx) :
    IDX2D i j nx = IDX2D a b nx ↔ (i = a ∧ j = b) := by
  unfold IDX2D
  constructor
  · intro h
    have hmod : (j * nx + i) % nx = (b * nx + a) % nx := by rw [h]
    have hdiv : (j * nx + i) / nx = (b * nx + a) / nx := by rw [h]
    rw [Nat.mul_add_mod_of_lt hi, Nat.mul_add_mod_of_lt ha] at hmod
    have hpos : 0 < nx := by omega
    rw [Nat.add_comm (j * nx), Nat.add_comm (b * nx), Nat.add_mul_div_right _ _ hpos,
      Nat.add_mul_div_right _ _ hpos, Nat.div_eq_of_lt hi, Nat.div_eq_of_lt ha] at hdiv
    exact ⟨hmod, by omega⟩
  · rintro ⟨rfl, rfl⟩
    rfl

/-- The inner copy loop for a fixed first index `i`, after `J` iterations. -/
theorem copy_inner (sp : gsl_spline2d K) (tbl : List (List K)) (i J : Nat) (zb : List K)
    (hlen : zb.length = sp.xsize * sp.ysize) :
    let r := (List.range J).foldl
      (fun zb j => (gsl_spline2d_set sp zb i j (gsl_matrix_get tbl i j)).2) zb
    r.length = zb.length ∧
    (∀ p, (i < sp.xsize → ∀ b, b < J → b < sp.ysize → p ≠ IDX2D i b sp.xsize) →
      r.getD p 0 = zb.getD p 0) ∧
    (∀ a b, a < sp.xsize → b < sp.ysize →
      r.getD (IDX2D a b sp.xsize) 0 =
        if a = i ∧ b < J then gsl_matrix_get tbl i b else zb.getD (IDX2D a b sp.xsize) 0) := by
  induction J with
  | zero =>
    simp
  | succ J ih =>
    rw [List.range_succ, List.foldl_append]
    simp only [List.foldl_cons, List.foldl_nil] at ih ⊢
    generalize (List.range J).foldl
      (fun zb j => (gsl_spline2d_set sp zb i j (gsl_matrix_get tbl i j)).2) zb = r at ih ⊢
    obtain ⟨hl, hframe, hget⟩ := ih
    unfold gsl_spline2d_set
    by_cases h1 : i ≥ sp.xsize
    · simp only [h1, if_true]
      refine ⟨hl, ?_, ?_⟩
      · intro p hp
        exact hframe p (fun hi => absurd hi (by omega))
      · intro a b ha hb
        rw [hget a b ha hb]
        have hne : a ≠ i := by omega
        simp [hne]
    · rw [if_neg h1]
      by_cases h2 : J ≥ sp.ysize
      · simp only [h2, if_true]
        refine ⟨hl, ?_, ?_⟩
        · intro p hp
          exact hframe p (fun hi b hb hb2 => hp hi b (by omega) hb2)
        · intro a b ha hb
          rw [hget a b ha hb]
          have : (b < J + 1) ↔ (b < J) := by omega
          simp only [this]
      · rw [if_neg h2]
        simp only [List.length_set]
        have hin : IDX2D i J sp.xsize < r.length := by
          rw [hl, hlen]
          exact IDX2D_lt i J _ _ (by omega) (by omega)
        refine ⟨hl, ?_, ?_⟩
        · intro p hp
          rw [getD_set_eq]
          have hne : ¬ (IDX2D i J sp.xsize = p ∧ IDX2D i J sp.xsize < r.length) := by
            intro hh
            exact hp (by omega) J (by omega) (by omega) hh.1.symm
          rw [if_neg hne]
          exact hframe p (fun hi b hb hb2 => hp hi b (by omega) hb2)
        · intro a b ha hb
          rw [getD_set_eq, hget a b ha hb]
          by_cases hab : a = i ∧ b = J
          · obtain ⟨rfl, rfl⟩ := hab
            simp [hin]
          · have hne : ¬ (IDX2D i J sp.xsize = IDX2D a b sp.xsize ∧
                IDX2D i J sp.xsize < r.length) := by
              intro hh
              have hij := (IDX2D_inj a b i J sp.xsize ha (by omega)).mp hh.1
              exact hab ⟨hij.1.symm, hij.2.symm⟩
            rw [if_neg hne]
            by_cases hai : a = i
            · have hbJ : b ≠ J := fun h => hab ⟨hai, h⟩
              have : (b < J + 1) ↔ (b < J) := by omega
              simp only [this]
            · simp [hai]

/-- The copy loop after `I` iterations of the outer loop, the inner loop running over
`j < nx`. -/
theorem copy_outer (sp : gsl_spline2d K) (tbl : List (List K)) (nx I : Nat) (zb : List K)
    (hlen : zb.length = sp.xsize * sp.ysize) :
    let r := (List.range I).foldl
      (fun zb i =>
        (List.range nx).foldl
          (fun zb j => (gsl_spline2d_set sp zb i j (gsl_matrix_get tbl i j)).2) zb) zb
    r.length = zb.length ∧
    (∀ a b, a < sp.xsize → b < sp.ysize →
      r.getD (IDX2D a b sp.xsize) 0 =
        if a < I ∧ b < nx then gsl_matrix_get tbl a b else zb.getD (IDX2D a b sp.xsize) 0) := by
  induction I with
  | zero =>
    simp
  | succ I ih =>
    rw [List.range_succ, List.foldl_append]
    simp only [List.foldl_cons, List.foldl_nil] at ih ⊢
    generalize (List.range I).foldl
      (fun zb i =>
        (List.range nx).foldl
          (fun zb j => (gsl_spline2d_set sp zb i j (gsl_matrix_get tbl i j)).2) zb) zb = r
      at ih ⊢
    obtain ⟨hl, hget⟩ := ih
    have hin := copy_inner sp tbl I nx r (by rw [hl, hlen])
    simp only at hin
    obtain ⟨hl2, _, hget2⟩ := hin
    refine ⟨by rw [hl2, hl], ?_⟩
    intro a b ha hb
    rw [hget2 a b ha hb, hget a b ha hb]
    by_cases haI : a = I
    · subst haI
      by_cases hbn : b < nx
      · simp [hbn]
      · simp [hbn]
    · have : (a < I + 1) ↔ (a < I) := by omega
      simp only [haI, false_and, if_false, this]

/-- What the copy loop of `Interpolator2DInitialize` leaves at node (x-index `a`,
y-index `b`) of the value buffer: the matrix entry in row `a`, column `b` when
`a < ny` and `b < nx`, and the previous content otherwise. -/
theorem copy_getD (sp : gsl_spline2d K) (tbl : List (List K)) (nx ny : Nat) (zb : List K)
    (hxs : sp.xsize = nx) (hys : sp.ysize = ny) (hlen : zb.length = nx * ny)
    (a b : Nat) (ha : a < nx) (hb : b < ny) :
    (Interpolator2DInitialize_copy sp tbl nx ny zb).getD (IDX2D a b nx) 0 =
      if a < ny ∧ b < nx then gsl_matrix_get tbl a b else zb.getD (IDX2D a b nx) 0 := by
  have h := copy_outer sp tbl nx ny zb (by rw [hxs, hys, hlen])
  simp only at h
  unfold Interpolator2DInitialize_copy
  have := h.2 a b (by omega) (by omega)
  rw [hxs] at this
  exact this

theorem copy_length (sp : gsl_spline2d K) (tbl : List (List K)) (nx ny : Nat) (zb : List K)
    (hxs : sp.xsize = nx) (hys : sp.ysize = ny) (hlen : zb.length = nx * ny) :
    (Interpolator2DInitialize_copy sp tbl nx ny zb).length = nx * ny := by
  have h := copy_outer sp tbl nx ny zb (by rw [hxs, hys, hlen])
  simp only at h
  unfold Interpolator2DInitialize_copy
  rw [h.1, hlen]

/-! ## Initialization of the interpolation object -/

theorem notStrictlyIncreasing_false (arr : List K) (n : Nat) (hlen : arr.length = n)
    (hinc : StrictlyIncreasing arr) : notStrictlyIncreasing arr n = false := by
  unfold notStrictlyIncreasing
  rw [List.any_eq_false]
  intro i hi
  rw [List.mem_range'_1] at hi
  have h := hinc (i - 1) (by omega)
  have hi1 : i - 1 + 1 = i := by omega
  rw [hi1] at h
  simp only [ge_iff_le, decide_eq_true_eq, not_le]
  exact h

theorem spline_init_valid (sp : gsl_spline2d K) (bx by_ bz : List K) (nx ny : Nat)
    (hxs : sp.xsize = nx) (hys : sp.ysize = ny)
    (hxa : sp.xarr.length = nx) (hya : sp.yarr.length = ny) (hza : sp.zarr.length = nx * ny)
    (hbx : bx.length = nx) (hby : by_.length = ny) (hbz : bz.length = nx * ny)
    (hxi : StrictlyIncreasing bx) (hyi : StrictlyIncreasing by_) :
    gsl_spline2d_init sp bx by_ bz nx ny =
      (GSL_SUCCESS,
        { xsize := nx, ysize := ny,
          xmin := bx.getD 0 0, xmax := bx.getD (nx - 1) 0,
          ymin := by_.getD 0 0, ymax := by_.getD (ny - 1) 0,
          xarr := bx, yarr := by_, zarr := bz }) := by
  unfold gsl_spline2d_init
  have h1 : ¬ (nx ≠ sp.xsize ∨ ny ≠ sp.ysize) := by
    rw [hxs, hys]
    simp
  simp only [h1, if_false, notStrictlyIncreasing_false bx nx hbx hxi,
    notStrictlyIncreasing_false by_ ny hby hyi, Bool.false_eq_true]
  rw [memcpy_full _ _ _ hbx hxa, memcpy_full _ _ _ hby hya, memcpy_full _ _ _ hbz hza,
    hxs, hys]

/-- A successful `Interpolator2DInitialize` on a created grid with at least two nodes
per axis: the grid holds the input axes and the value buffer written by the copy loop,
the interpolation object holds copies of them, and both accelerators are the ones the
grid had before the call. -/
theorem Initialize_establishes (s : interpolator_2d_t K) (xs ys : List K)
    (tbl : List (List K)) (bz : List K) (sp : gsl_spline2d K)
    (hs : Created s) (hz : s.z = some bz) (hsp : s.spline = some sp)
    (hnx : 2 ≤ s.nx) (hny : 2 ≤ s.ny)
    (hxa : AccOK s.xacc s.nx) (hya : AccOK s.yacc s.ny)
    (hxs : xs.length = s.nx) (hys : ys.length = s.ny)
    (hxi : StrictlyIncreasing xs) (hyi : StrictlyIncreasing ys) :
    (Interpolator2DInitialize s xs ys tbl).1 = true ∧
    Initialized (Interpolator2DInitialize s xs ys tbl).2 xs ys
      (Interpolator2DInitialize_copy sp tbl s.nx s.ny bz) ∧
    (Interpolator2DInitialize s xs ys tbl).2.nx = s.nx ∧
    (Interpolator2DInitialize s xs ys tbl).2.ny = s.ny ∧
    (Interpolator2DInitialize s xs ys tbl).2.xacc = s.xacc ∧
    (Interpolator2DInitialize s xs ys tbl).2.yacc = s.yacc := by
  obtain ⟨bx, hx, hxl⟩ := hs.x_buf
  obtain ⟨by_, hy, hyl⟩ := hs.y_buf
  obtain ⟨bz', hz', hzl⟩ := hs.z_buf
  obtain ⟨sp', hsp', hsx, hsy, hsxa, hsya, hsza⟩ := hs.spline_obj
  rw [hz] at hz'
  rw [hsp] at hsp'
  cases hz'
  cases hsp'
  have hret := (Initialize_ret_iff s xs ys tbl hs (by omega) (by omega) hxs hys).mpr ⟨hxi, hyi⟩
  rw [Initialize_eq s xs ys tbl bx by_ bz sp hx hy hz hsp] at hret ⊢
  have hcond : (Interpolator2DInitialize_axis ys s.ny
      (Interpolator2DInitialize_axis xs s.nx true bx).1 by_).1 = true := by
    by_contra hc
    rw [if_neg hc] at hret
    exact absurd hret (by simp)
  rw [if_pos hcond]
  have hbx := axis_buf_of_increasing xs bx s.nx true (by omega) hxl hxs hxi
  have hby := axis_buf_of_increasing ys by_ s.ny
    (Interpolator2DInitialize_axis xs s.nx true bx).1 (by omega) hyl hys hyi
  rw [hbx, hby]
  have hcl := copy_length sp tbl s.nx s.ny bz hsx hsy hzl
  rw [spline_init_valid sp xs ys _ s.nx s.ny hsx hsy hsxa hsya hsza hxs hys hcl hxi hyi]
  refine ⟨rfl, ?_, rfl, rfl, rfl, rfl⟩
  exact
    { hx := rfl, hy := rfl, hz := rfl, nx_ge := hnx, ny_ge := hny,
      nx_lt := hs.nx_lt, ny_lt := hs.ny_lt, x_len := hxs, y_len := hys, z_len := hcl,
      x_inc := hxi, y_inc := hyi, hspline := rfl, xacc_ok := hxa, yacc_ok := hya }

/-- A successful `Interpolator2DCreate` yields a created grid with fresh accelerators. -/
theorem Create_created (self : interpolator_2d_t K) (gx gy gz : List K) (nx ny : Nat)
    (hnx : nx < 2 ^ 32) (hny : ny < 2 ^ 32) (hz : nx * ny < 2 ^ 32) :
    (Interpolator2DCreate self (some gx) (some gy) (some gz) nx ny).1 = true ∧
    Created (Interpolator2DCreate self (some gx) (some gy) (some gz) nx ny).2 ∧
    (Interpolator2DCreate self (some gx) (some gy) (some gz) nx ny).2.nx = nx ∧
    (Interpolator2DCreate self (some gx) (some gy) (some gz) nx ny).2.ny = ny ∧
    (Interpolator2DCreate self (some gx) (some gy) (some gz) nx ny).2.xacc =
      some gsl_interp_accel_alloc ∧
    (Interpolator2DCreate self (some gx) (some gy) (some gz) nx ny).2.yacc =
      some gsl_interp_accel_alloc := by
  have h1 : axis_bytes nx / sizeof_double = nx := by
    unfold axis_bytes sizeof_double
    omega
  have h2 : axis_bytes ny / sizeof_double = ny := by
    unfold axis_bytes sizeof_double
    omega
  have h3 : z_bytes nx ny / sizeof_double = nx * ny := by
    unfold z_bytes sizeof_double
    generalize nx * ny = m at hz ⊢
    omega
  refine ⟨by simp [Interpolator2DCreate, malloc], ?_, by simp [Interpolator2DCreate, malloc],
    by simp [Interpolator2DCreate, malloc], by simp [Interpolator2DCreate, malloc],
    by simp [Interpolator2DCreate, malloc]⟩
  exact
    { x_buf := by simp [Interpolator2DCreate, malloc, h1]
      y_buf := by simp [Interpolator2DCreate, malloc, h2]
      z_buf := by simp [Interpolator2DCreate, malloc, h3]
      spline_obj := by simp [Interpolator2DCreate, malloc, gsl_spline2d_alloc]
      nx_lt := by simpa [Interpolator2DCreate, malloc] using hnx
      ny_lt := by simpa [Interpolator2DCreate, malloc] using hny }

/-! ## Locating the enclosing cell -/

theorem bsearch_unfold (arr : List K) (x : K) (lo hi : Nat) :
    gsl_interp_bsearch arr x lo hi =
      if hi > lo + 1 then
        if arr.getD ((hi + lo) / 2) 0 > x then gsl_interp_bsearch arr x lo ((hi + lo) / 2)
        else gsl_interp_bsearch arr x ((hi + lo) / 2) hi
      else lo := by
  rw [gsl_interp_bsearch]

/-- The binary search returns an index of `[lo, hi - 1]` whose interval brackets `x`:
the lower end is at or below `x` when `x_array[lo]` is, and the upper end is above `x`
unless it is the upper bound `hi` itself. -/
theorem bsearch_spec (arr : List K) (x : K) (d : Nat) :
    ∀ lo hi, hi - lo = d → lo < hi →
      lo ≤ gsl_interp_bsearch arr x lo hi ∧ gsl_interp_bsearch arr x lo hi < hi ∧
      (arr.getD lo 0 ≤ x → arr.getD (gsl_interp_bsearch arr x lo hi) 0 ≤ x) ∧
      (gsl_interp_bsearch arr x lo hi + 1 < hi →
        x < arr.getD (gsl_interp_bsearch arr x lo hi + 1) 0) := by
  induction d using Nat.strong_induction_on with
  | _ d ih =>
    intro lo hi hd hlt
    rw [bsearch_unfold]
    by_cases h : hi > lo + 1
    · rw [if_pos h]
      by_cases hc : arr.getD ((hi + lo) / 2) 0 > x
      · rw [if_pos hc]
        have hm1 : lo < (hi + lo) / 2 := by omega
        have hm2 : (hi + lo) / 2 < hi := by omega
        obtain ⟨h1, h2, h3, h4⟩ := ih ((hi + lo) / 2 - lo) (by omega) lo ((hi + lo) / 2) rfl hm1
        refine ⟨h1, by omega, h3, ?_⟩
        intro _
        by_cases hlast : gsl_interp_bsearch arr x lo ((hi + lo) / 2) + 1 < (hi + lo) / 2
        · exact h4 hlast
        · have : gsl_interp_bsearch arr x lo ((hi + lo) / 2) + 1 = (hi + lo) / 2 := by omega
          rw [this]
          exact hc
      · rw [if_neg hc]
        have hm1 : lo < (hi + lo) / 2 := by omega
        have hm2 : (hi + lo) / 2 < hi := by omega
        obtain ⟨h1, h2, h3, h4⟩ := ih (hi - (hi + lo) / 2) (by omega) ((hi + lo) / 2) hi rfl hm2
        refine ⟨by omega, h2, ?_, h4⟩
        intro _
        exact h3 (not_lt.mp hc)
    · rw [if_neg h]
      refine ⟨le_rfl, hlt, fun h => h, ?_⟩
      intro h'
      omega

theorem bsearch_degenerate (arr : List K) (x : K) (lo hi : Nat) (h : hi ≤ lo + 1) :
    gsl_interp_bsearch arr x lo hi = lo := by
  rw [bsearch_unfold, if_neg (by omega)]

theorem increasing_lt (arr : List K) (hinc : StrictlyIncreasing arr) (i j : Nat)
    (hij : i < j) (hj : j < arr.length) : arr.getD i 0 < arr.getD j 0 := by
  induction j with
  | zero => omega
  | succ j ih =>
    by_cases h : i = j
    · subst h
      exact hinc i hj
    · exact lt_trans (ih (by omega) (by omega)) (hinc j hj)

theorem increasing_le (arr : List K) (hinc : StrictlyIncreasing arr) (i j : Nat)
    (hij : i ≤ j) (hj : j < arr.length) : arr.getD i 0 ≤ arr.getD j 0 := by
  by_cases h : i = j
  · subst h
    exact le_rfl
  · exact le_of_lt (increasing_lt arr hinc i j (by omega) hj)

/-- On a strictly increasing axis at most one cell encloses a query. -/
theorem CellOf_unique (arr : List K) (n : Nat) (q : K) (i j : Nat)
    (hlen : arr.length = n) (hinc : StrictlyIncreasing arr)
    (hi : CellOf arr n q i) (hj : CellOf arr n q j) : i = j := by
  obtain ⟨hi1, hi2, hi3⟩ := hi
  obtain ⟨hj1, hj2, hj3⟩ := hj
  by_contra hne
  rcases Nat.lt_or_gt_of_ne hne with h | h
  · -- i < j: q < arr[i+1] ≤ arr[j] ≤ q, or i is the last cell
    rcases hi3 with h3 | ⟨_, h3⟩
    · have := increasing_le arr hinc (i + 1) j (by omega) (by omega)
      exact absurd (lt_of_lt_of_le h3 (le_trans this hj2)) (lt_irrefl _)
    · omega
  · rcases hj3 with h3 | ⟨_, h3⟩
    · have := increasing_le arr hinc (j + 1) i (by omega) (by omega)
      exact absurd (lt_of_lt_of_le h3 (le_trans this hi2)) (lt_irrefl _)
    · omega

/-- The cold binary search over the whole axis locates the enclosing cell. -/
theorem bsearch_cell (arr : List K) (n : Nat) (q : K) (hn : 2 ≤ n)
    (hlo : arr.getD 0 0 ≤ q) (hhi : q ≤ arr.getD (n - 1) 0) :
    CellOf arr n q (gsl_interp_bsearch arr q 0 (n - 1)) := by
  obtain ⟨h1, h2, h3, h4⟩ := bsearch_spec arr q (n - 1 - 0) 0 (n - 1) rfl (by omega)
  refine ⟨by omega, h3 hlo, ?_⟩
  by_cases hlast : gsl_interp_bsearch arr q 0 (n - 1) + 1 < n - 1
  · exact Or.inl (h4 hlast)
  · have heq : gsl_interp_bsearch arr q 0 (n - 1) + 1 = n - 1 := by omega
    rcases lt_or_eq_of_le hhi with h | h
    · left
      rw [heq]
      exact h
    · right
      exact ⟨h, by omega⟩

/-- The accelerated lookup locates the enclosing cell and caches it, whatever valid
index the accelerator had cached. -/
theorem accel_find_cell (a : gsl_interp_accel) (arr : List K) (n : Nat) (q : K)
    (hc : a.cache + 2 ≤ n)
    (hlo : arr.getD 0 0 ≤ q) (hhi : q ≤ arr.getD (n - 1) 0) :
    CellOf arr n q (gsl_interp_accel_find a arr n q).1 ∧
    (gsl_interp_accel_find a arr n q).2.cache = (gsl_interp_accel_find a arr n q).1 := by
  unfold gsl_interp_accel_find
  by_cases h1 : q < arr.getD a.cache 0
  · simp only [h1, if_true, and_true]
    have hpos : 0 < a.cache := by
      by_contra h0
      have : a.cache = 0 := by omega
      rw [this] at h1
      exact absurd (lt_of_le_of_lt hlo h1) (lt_irrefl _)
    obtain ⟨_, h2, h3, h4⟩ := bsearch_spec arr q (a.cache - 0) 0 a.cache rfl hpos
    refine ⟨by omega, h3 hlo, Or.inl ?_⟩
    by_cases hlast : gsl_interp_bsearch arr q 0 a.cache + 1 < a.cache
    · exact h4 hlast
    · have heq : gsl_interp_bsearch arr q 0 a.cache + 1 = a.cache := by omega
      rw [heq]
      exact h1
  · rw [if_neg h1]
    by_cases h2 : q ≥ arr.getD (a.cache + 1) 0
    · simp only [h2, if_true, and_true]
      obtain ⟨h3, h4, h5, h6⟩ :=
        bsearch_spec arr q (n - 1 - a.cache) a.cache (n - 1) rfl (by omega)
      refine ⟨by omega, h5 (not_lt.mp h1), ?_⟩
      by_cases hlast : gsl_interp_bsearch arr q a.cache (n - 1) + 1 < n - 1
      · exact Or.inl (h6 hlast)
      · have heq : gsl_interp_bsearch arr q a.cache (n - 1) + 1 = n - 1 := by omega
        rcases lt_or_eq_of_le hhi with h | h
        · left
          rw [heq]
          exact h
        · right
          exact ⟨h, by omega⟩
    · rw [if_neg h2]
      exact ⟨⟨hc, not_lt.mp h1, Or.inl (not_le.mp h2)⟩, rfl⟩

/-- Lookup through any usable accelerator handle returns the index of the cold binary
search, and leaves a usable handle. -/
theorem axis_find_spec (acc : Option gsl_interp_accel) (arr : List K) (n : Nat) (q : K)
    (hn : 2 ≤ n) (hlen : arr.length = n) (hinc : StrictlyIncreasing arr) (hacc : AccOK acc n)
    (hlo : arr.getD 0 0 ≤ q) (hhi : q ≤ arr.getD (n - 1) 0) :
    (axis_find acc arr n q).1 = gsl_interp_bsearch arr q 0 (n - 1) ∧
    CellOf arr n q (axis_find acc arr n q).1 ∧
    AccOK (axis_find acc arr n q).2 n := by
  cases acc with
  | none =>
    refine ⟨rfl, bsearch_cell arr n q hn hlo hhi, ?_⟩
    intro a ha
    simp [axis_find] at ha
  | some a =>
    have h := accel_find_cell a arr n q (hacc a rfl) hlo hhi
    refine ⟨?_, h.1, ?_⟩
    · exact CellOf_unique arr n q _ _ hlen hinc h.1 (bsearch_cell arr n q hn hlo hhi)
    · intro a' ha'
      simp only [axis_find, Option.some.injEq] at ha'
      subst ha'
      rw [h.2]
      exact h.1.1

/-! ## `Interpolator2DCalculate` on an initialized grid -/

theorem u32_pred_eq (n : Nat) (h1 : 1 ≤ n) (h2 : n < 2 ^ 32) : u32_pred n = n - 1 := by
  unfold u32_pred
  omega

/-- A query that passes the range check: the call succeeds, the output variable receives
the bilinear formula on the cell located on each axis, and only the accelerators change. -/
theorem Calculate_of_inRange (s : interpolator_2d_t K) (bx by_ bz : List K) (qx qy : K)
    (z0 : Option K) (hI : Initialized s bx by_ bz) (h : InRange bx by_ qx qy) :
    Interpolator2DCalculate s qx qy z0 =
      (true,
        some (bilinear_formula bx by_ bz s.nx
          (axis_find s.xacc bx s.nx qx).1 (axis_find s.yacc by_ s.ny qy).1 qx qy),
        { s with
          xacc := (axis_find s.xacc bx s.nx qx).2,
          yacc := (axis_find s.yacc by_ s.ny qy).2 }) := by
  obtain ⟨h1, h2, h3, h4⟩ := h
  rw [hI.x_len] at h2
  rw [hI.y_len] at h4
  have hpx := u32_pred_eq s.nx (by have := hI.nx_ge; omega) hI.nx_lt
  have hpy := u32_pred_eq s.ny (by have := hI.ny_ge; omega) hI.ny_lt
  simp only [Interpolator2DCalculate, hI.hx, hI.hy, hI.hspline, hpx, hpy]
  rw [if_pos ⟨h1, h2, h3, h4⟩]
  simp only [gsl_spline2d_eval]
  rw [if_neg (by
    intro hc
    rcases hc with hc | hc
    · exact absurd (lt_of_le_of_lt h1 hc) (lt_irrefl _)
    · exact absurd (lt_of_le_of_lt h2 hc) (lt_irrefl _))]
  rw [if_neg (by
    intro hc
    rcases hc with hc | hc
    · exact absurd (lt_of_le_of_lt h3 hc) (lt_irrefl _)
    · exact absurd (lt_of_le_of_lt h4 hc) (lt_irrefl _))]
  simp only [bilinear_eval]

/-- A query that fails the range check: the call fails and changes nothing. -/
theorem Calculate_of_not_inRange (s : interpolator_2d_t K) (bx by_ bz : List K) (qx qy : K)
    (z0 : Option K) (hI : Initialized s bx by_ bz) (h : ¬ InRange bx by_ qx qy) :
    Interpolator2DCalculate s qx qy z0 = (false, z0, s) := by
  have hpx := u32_pred_eq s.nx (by have := hI.nx_ge; omega) hI.nx_lt
  have hpy := u32_pred_eq s.ny (by have := hI.ny_ge; omega) hI.ny_lt
  simp only [Interpolator2DCalculate, hI.hx, hI.hy, hI.hspline, hpx, hpy]
  rw [if_neg]
  intro hc
  apply h
  unfold InRange
  rw [hI.x_len, hI.y_len]
  exact hc

/-- `Interpolator2DCalculate` keeps an initialized grid initialized, with the same data. -/
theorem Calculate_preserves (s : interpolator_2d_t K) (bx by_ bz : List K) (qx qy : K)
    (z0 : Option K) (hI : Initialized s bx by_ bz) :
    Initialized (Interpolator2DCalculate s qx qy z0).2.2 bx by_ bz := by
  by_cases h : InRange bx by_ qx qy
  · rw [Calculate_of_inRange s bx by_ bz qx qy z0 hI h]
    obtain ⟨h1, h2, h3, h4⟩ := h
    rw [hI.x_len] at h2
    rw [hI.y_len] at h4
    exact
      { hx := hI.hx, hy := hI.hy, hz := hI.hz, nx_ge := hI.nx_ge, ny_ge := hI.ny_ge,
        nx_lt := hI.nx_lt, ny_lt := hI.ny_lt, x_len := hI.x_len, y_len := hI.y_len,
        z_len := hI.z_len, x_inc := hI.x_inc, y_inc := hI.y_inc, hspline := hI.hspline,
        xacc_ok := (axis_find_spec s.xacc bx s.nx qx hI.nx_ge hI.x_len hI.x_inc
          hI.xacc_ok h1 h2).2.2,
        yacc_ok := (axis_find_spec s.yacc by_ s.ny qy hI.ny_ge hI.y_len hI.y_inc
          hI.yacc_ok h3 h4).2.2 }
  · rw [Calculate_of_not_inRange s bx by_ bz qx qy z0 hI h]
    exact hI

/-! ## The example grid -/

theorem strictlyIncreasing_pair (a b : K) (h : a < b) : StrictlyIncreasing [a, b] := by
  intro i hi
  have : i = 0 := by
    simp only [List.length_cons, List.length_nil] at hi
    omega
  subst this
  simpa using h

theorem demoCreated_created : Created demoCreated :=
  (Create_created demoBlank [7, 7] [7, 7] [7, 7, 7, 7] 2 2 (by norm_num) (by norm_num)
    (by norm_num)).2.1

theorem accOK_alloc (n : Nat) (hn : 2 ≤ n) : AccOK (some gsl_interp_accel_alloc) n := by
  intro a ha
  cases ha
  exact hn

theorem demoCreated_accOK : AccOK demoCreated.xacc 2 ∧ AccOK demoCreated.yacc 2 :=
  ⟨accOK_alloc 2 le_rfl, accOK_alloc 2 le_rfl⟩

theorem demoGrid_initialized : Initialized demoGrid [0, 1] [0, 1] [10, 30, 20, 40] := by
  have h := (Initialize_establishes demoCreated [0, 1] [0, 1] demoTable [7, 7, 7, 7]
    { xsize := 2, ysize := 2, xmin := 0, xmax := 0, ymin := 0, ymax := 0,
      xarr := [0, 0], yarr := [0, 0], zarr := [0, 0, 0, 0] }
    demoCreated_created rfl rfl (by decide) (by decide)
    demoCreated_accOK.1 demoCreated_accOK.2 rfl rfl
    (strictlyIncreasing_pair 0 1 (by norm_num)) (strictlyIncreasing_pair 0 1 (by norm_num))).2.1
  have hz : Interpolator2DInitialize_copy
      ({ xsize := 2, ysize := 2, xmin := 0, xmax := 0, ymin := 0, ymax := 0,
         xarr := [0, 0], yarr := [0, 0], zarr := [0, 0, 0, 0] } : gsl_spline2d ℚ)
      demoTable demoCreated.nx demoCreated.ny [7, 7, 7, 7] = [10, 30, 20, 40] := by
    decide
  rw [hz] at h
  exact h

/-! ## Calls described without accelerators -/

/-- On an initialized grid a call returns what the accelerator-free description says. -/
theorem Calculate_cold (s : interpolator_2d_t K) (bx by_ bz : List K) (q : K × K)
    (z0 : Option K) (hI : Initialized s bx by_ bz) :
    ((Interpolator2DCalculate s q.1 q.2 z0).1, (Interpolator2DCalculate s q.1 q.2 z0).2.1) =
      coldCalculate bx by_ bz z0 q := by
  unfold coldCalculate
  by_cases h : InRange bx by_ q.1 q.2
  · have h' : bx.getD 0 0 ≤ q.1 ∧ q.1 ≤ bx.getD (bx.length - 1) 0 ∧
        by_.getD 0 0 ≤ q.2 ∧ q.2 ≤ by_.getD (by_.length - 1) 0 := h
    rw [Calculate_of_inRange s bx by_ bz q.1 q.2 z0 hI h, if_pos h']
    obtain ⟨h1, h2, h3, h4⟩ := h
    rw [hI.x_len] at h2
    rw [hI.y_len] at h4
    have hx := axis_find_spec s.xacc bx s.nx q.1 hI.nx_ge hI.x_len hI.x_inc hI.xacc_ok h1 h2
    have hy := axis_find_spec s.yacc by_ s.ny q.2 hI.ny_ge hI.y_len hI.y_inc hI.yacc_ok h3 h4
    simp only [coldValue, hx.1, hy.1, hI.x_len, hI.y_len]
  · have h' : ¬ (bx.getD 0 0 ≤ q.1 ∧ q.1 ≤ bx.getD (bx.length - 1) 0 ∧
        by_.getD 0 0 ≤ q.2 ∧ q.2 ≤ by_.getD (by_.length - 1) 0) := h
    rw [Calculate_of_not_inRange s bx by_ bz q.1 q.2 z0 hI h, if_neg h']

theorem runQueries_cold (bx by_ bz : List K) (qs : List (K × K)) :
    ∀ (s : interpolator_2d_t K) (z0 : Option K), Initialized s bx by_ bz →
      runQueries s z0 qs = coldRun bx by_ bz z0 qs := by
  induction qs with
  | nil =>
    intro s z0 _
    rfl
  | cons q qs ih =>
    intro s z0 hI
    have hc := Calculate_cold s bx by_ bz q z0 hI
    have hp := Calculate_preserves s bx by_ bz q.1 q.2 z0 hI
    simp only [runQueries, coldRun]
    rw [ih _ _ hp, hc]
    have h2 : (Interpolator2DCalculate s q.1 q.2 z0).2.1 = (coldCalculate bx by_ bz z0 q).2 := by
      rw [← hc]
    rw [h2]

theorem afterQueries_initialized (bx by_ bz : List K) (qs : List (K × K)) :
    ∀ (s : interpolator_2d_t K) (z0 : Option K), Initialized s bx by_ bz →
      Initialized (afterQueries s z0 qs) bx by_ bz := by
  induction qs with
  | nil =>
    intro s z0 hI
    exact hI
  | cons q qs ih =>
    intro s z0 hI
    simp only [afterQueries]
    exact ih _ _ (Calculate_preserves s bx by_ bz q.1 q.2 z0 hI)

theorem coldRun_inRange (bx by_ bz : List K) (qs : List (K × K)) :
    ∀ (z0 : Option K), (∀ q ∈ qs, InRange bx by_ q.1 q.2) →
      coldRun bx by_ bz z0 qs = qs.map (fun q => (true, some (coldValue bx by_ bz q))) := by
  induction qs with
  | nil =>
    intro _ _
    rfl
  | cons q qs ih =>
    intro z0 h
    have hq : bx.getD 0 0 ≤ q.1 ∧ q.1 ≤ bx.getD (bx.length - 1) 0 ∧
        by_.getD 0 0 ≤ q.2 ∧ q.2 ≤ by_.getD (by_.length - 1) 0 := h q (List.mem_cons_self _ _)
    have hc : coldCalculate bx by_ bz z0 q = (true, some (coldValue bx by_ bz q)) := by
      unfold coldCalculate
      rw [if_pos hq]
    simp only [coldRun, List.map_cons]
    rw [hc, ih _ (fun q' hq' => h q' (List.mem_cons_of_mem _ hq'))]

/-- On an axis of two nodes every lookup yields cell `0`. -/
theorem axis_find_two (acc : Option gsl_interp_accel) (arr : List K) (q : K)
    (hlen : arr.length = 2) (hinc : StrictlyIncreasing arr) (hacc : AccOK acc 2)
    (hlo : arr.getD 0 0 ≤ q) (hhi : q ≤ arr.getD 1 0) :
    (axis_find acc arr 2 q).1 = 0 := by
  have h := (axis_find_spec acc arr 2 q le_rfl hlen hinc hacc hlo hhi).2.1
  have := h.1
  omega

/-- On an initialized single-cell grid an in-range query succeeds and evaluates the
bilinear formula on cell `(0, 0)`. -/
theorem Calculate_single_cell (s : interpolator_2d_t K) (x0 x1 y0 y1 : K) (bz : List K)
    (qx qy : K) (z0 : Option K) (hI : Initialized s [x0, x1] [y0, y1] bz)
    (hx0 : x0 ≤ qx) (hx1 : qx ≤ x1) (hy0 : y0 ≤ qy) (hy1 : qy ≤ y1) :
    (Interpolator2DCalculate s qx qy z0).1 = true ∧
    (Interpolator2DCalculate s qx qy z0).2.1 =
      some (bilinear_formula [x0, x1] [y0, y1] bz 2 0 0 qx qy) := by
  have hnx : s.nx = 2 := hI.x_len.symm
  have hny : s.ny = 2 := hI.y_len.symm
  have hin : InRange [x0, x1] [y0, y1] qx qy := by
    unfold InRange
    simpa using ⟨hx0, hx1, hy0, hy1⟩
  rw [Calculate_of_inRange s _ _ bz qx qy z0 hI hin]
  have hxa := hI.xacc_ok
  have hya := hI.yacc_ok
  rw [hnx] at hxa
  rw [hny] at hya
  have hfx := axis_find_two s.xacc [x0, x1] qx rfl hI.x_inc hxa (by simpa using hx0)
    (by simpa using hx1)
  have hfy := axis_find_two s.yacc [y0, y1] qy rfl hI.y_inc hya (by simpa using hy0)
    (by simpa using hy1)
  simp only [hnx, hny, hfx, hfy, and_self]

/-! ## A failed re-initialization -/

/-- A failed `Interpolator2DInitialize` on a grid with non-null handles changes the `x`
and `y` buffers only; both keep their length and receive the first input element. -/
theorem Initialize_failed (s : interpolator_2d_t K) (bx by_ bz : List K)
    (xs ys : List K) (tbl : List (List K)) (hI : Initialized s bx by_ bz)
    (hfail : (Interpolator2DInitialize s xs ys tbl).1 = false) :
    ∃ bx' by', (Interpolator2DInitialize s xs ys tbl).2 =
        { s with x := some bx', y := some by' } ∧
      bx'.length = s.nx ∧ by'.length = s.ny ∧
      bx'.getD 0 0 = xs.getD 0 0 ∧ by'.getD 0 0 = ys.getD 0 0 := by
  have hnx := hI.nx_ge
  have hny := hI.ny_ge
  rw [Initialize_eq s xs ys tbl bx by_ bz _ hI.hx hI.hy hI.hz hI.hspline] at hfail ⊢
  split at hfail
  · exact absurd hfail (by simp)
  · rename_i hc
    rw [if_neg hc]
    exact ⟨_, _, rfl, axis_length xs bx s.nx true (by omega) hI.x_len,
      axis_length ys by_ s.ny _ (by omega) hI.y_len,
      axis_head xs bx s.nx true (by omega) hI.x_len,
      axis_head ys by_ s.ny _ (by omega) hI.y_len⟩

/-- The buffers left by a failed `Interpolator2DInitialize`, element by element: `x[0]`
holds the first input element, each later `x[i]` holds the input element when it
exceeded the stored `x[i-1]` and its previous content otherwise; likewise for `y`. -/
theorem Initialize_failed_buffers (s : interpolator_2d_t K) (bx by_ bz : List K)
    (xs ys : List K) (tbl : List (List K)) (hI : Initialized s bx by_ bz)
    (hfail : (Interpolator2DInitialize s xs ys tbl).1 = false) :
    ∃ bx' by', (Interpolator2DInitialize s xs ys tbl).2 =
        { s with x := some bx', y := some by' } ∧
      bx'.length = s.nx ∧ by'.length = s.ny ∧
      bx'.getD 0 0 = xs.getD 0 0 ∧ by'.getD 0 0 = ys.getD 0 0 ∧
      (∀ i, 1 ≤ i → i < s.nx →
        bx'.getD i 0 =
          if xs.getD i 0 > bx'.getD (i - 1) 0 then xs.getD i 0 else bx.getD i 0) ∧
      (∀ i, 1 ≤ i → i < s.ny →
        by'.getD i 0 =
          if ys.getD i 0 > by'.getD (i - 1) 0 then ys.getD i 0 else by_.getD i 0) := by
  have hnx := hI.nx_ge
  have hny := hI.ny_ge
  rw [Initialize_eq s xs ys tbl bx by_ bz _ hI.hx hI.hy hI.hz hI.hspline] at hfail ⊢
  split at hfail
  · exact absurd hfail (by simp)
  · rename_i hc
    rw [if_neg hc]
    exact ⟨_, _, rfl, axis_length xs bx s.nx true (by omega) hI.x_len,
      axis_length ys by_ s.ny _ (by omega) hI.y_len,
      axis_head xs bx s.nx true (by omega) hI.x_len,
      axis_head ys by_ s.ny _ (by omega) hI.y_len,
      fun i h1 h2 => axis_elements xs bx s.nx true (by omega) hI.x_len i h1 h2,
      fun i h1 h2 => axis_elements ys by_ s.ny _ (by omega) hI.y_len i h1 h2⟩

/-- The body of `Interpolator2DCalculate` on an instance whose handles are not null. -/
theorem Calculate_unfold (s : interpolator_2d_t K) (ax ay : List K) (sp : gsl_spline2d K)
    (qx qy : K) (z0 : Option K) (hx : s.x = some ax) (hy : s.y = some ay)
    (hsp : s.spline = some sp) (hnx : 1 ≤ s.nx) (hny : 1 ≤ s.ny)
    (hnx2 : s.nx < 2 ^ 32) (hny2 : s.ny < 2 ^ 32) :
    Interpolator2DCalculate s qx qy z0 =
      if ax.getD 0 0 ≤ qx ∧ qx ≤ ax.getD (s.nx - 1) 0 ∧
          ay.getD 0 0 ≤ qy ∧ qy ≤ ay.getD (s.ny - 1) 0 then
        (true, (gsl_spline2d_eval sp qx qy s.xacc s.yacc).1,
          { s with
            xacc := (gsl_spline2d_eval sp qx qy s.xacc s.yacc).2.1,
            yacc := (gsl_spline2d_eval sp qx qy s.xacc s.yacc).2.2 })
      else (false, z0, s) := by
  simp only [Interpolator2DCalculate, hx, hy, hsp, u32_pred_eq s.nx hnx hnx2,
    u32_pred_eq s.ny hny hny2, ge_iff_le]

/-- `Interpolator2DCalculate` on an initialized grid whose `x` and `y` buffers have been
replaced: the range check reads the replaced buffers, the evaluation the data held by
the interpolation object. -/
theorem Calculate_stale (s : interpolator_2d_t K) (bx by_ bz bx' by' : List K)
    (qx qy : K) (z0 : Option K) (hI : Initialized s bx by_ bz) :
    ((Interpolator2DCalculate { s with x := some bx', y := some by' } qx qy z0).1 = true ↔
      (bx'.getD 0 0 ≤ qx ∧ qx ≤ bx'.getD (s.nx - 1) 0 ∧
        by'.getD 0 0 ≤ qy ∧ qy ≤ by'.getD (s.ny - 1) 0)) ∧
    ((Interpolator2DCalculate { s with x := some bx', y := some by' } qx qy z0).1 = true →
      InRange bx by_ qx qy →
      (Interpolator2DCalculate { s with x := some bx', y := some by' } qx qy z0).2.1 =
        (Interpolator2DCalculate s qx qy z0).2.1) := by
  have hnx : 1 ≤ s.nx := by have := hI.nx_ge; omega
  have hny : 1 ≤ s.ny := by have := hI.ny_ge; omega
  have h1 := Calculate_unfold { s with x := some bx', y := some by' } bx' by' _ qx qy z0
    rfl rfl hI.hspline hnx hny hI.nx_lt hI.ny_lt
  have h2 := Calculate_unfold s bx by_ _ qx qy z0 hI.hx hI.hy hI.hspline hnx hny
    hI.nx_lt hI.ny_lt
  dsimp only at h1
  rw [h1, h2]
  by_cases hc : bx'.getD 0 0 ≤ qx ∧ qx ≤ bx'.getD (s.nx - 1) 0 ∧
      by'.getD 0 0 ≤ qy ∧ qy ≤ by'.getD (s.ny - 1) 0
  · rw [if_pos hc]
    refine ⟨⟨fun _ => hc, fun _ => rfl⟩, ?_⟩
    intro _ hin
    obtain ⟨i1, i2, i3, i4⟩ := hin
    rw [hI.x_len] at i2
    rw [hI.y_len] at i4
    rw [if_pos ⟨i1, i2, i3, i4⟩]
  · rw [if_neg hc]
    refine ⟨⟨fun h => absurd h (by simp), fun h => absurd h hc⟩, ?_⟩
    intro h
    exact absurd h (by simp)

/-! ## Re-initialization -/

theorem Initialized_created (s : interpolator_2d_t K) (bx by_ bz : List K)
    (hI : Initialized s bx by_ bz) : Created s :=
  { x_buf := ⟨bx, hI.hx, hI.x_len⟩
    y_buf := ⟨by_, hI.hy, hI.y_len⟩
    z_buf := ⟨bz, hI.hz, hI.z_len⟩
    spline_obj := ⟨_, hI.hspline, rfl, rfl, hI.x_len, hI.y_len, hI.z_len⟩
    nx_lt := hI.nx_lt
    ny_lt := hI.ny_lt }

/-- Two runs of the copy loop with the same table agree as soon as the two value buffers
agree on the nodes the loop does not write. -/
theorem copy_eq_of_agree (sp1 sp2 : gsl_spline2d K) (tbl : List (List K)) (nx ny : Nat)
    (zb1 zb2 : List K) (h1x : sp1.xsize = nx) (h1y : sp1.ysize = ny)
    (h2x : sp2.xsize = nx) (h2y : sp2.ysize = ny)
    (hl1 : zb1.length = nx * ny) (hl2 : zb2.length = nx * ny)
    (hagree : ∀ a b, a < nx → b < ny → ¬ (a < ny ∧ b < nx) →
      zb1.getD (IDX2D a b nx) 0 = zb2.getD (IDX2D a b nx) 0) :
    Interpolator2DInitialize_copy sp1 tbl nx ny zb1 =
      Interpolator2DInitialize_copy sp2 tbl nx ny zb2 := by
  have hc1 := copy_length sp1 tbl nx ny zb1 h1x h1y hl1
  have hc2 := copy_length sp2 tbl nx ny zb2 h2x h2y hl2
  apply list_eq_of_getD _ _ (by rw [hc1, hc2])
  intro p hp
  rw [hc1] at hp
  have hnx : 0 < nx := by
    rcases Nat.eq_zero_or_pos nx with h | h
    · rw [h, Nat.zero_mul] at hp
      omega
    · exact h
  have ha : p % nx < nx := Nat.mod_lt _ hnx
  have hb : p / nx < ny := by
    rw [Nat.div_lt_iff_lt_mul hnx, Nat.mul_comm]
    exact hp
  have hidx : IDX2D (p % nx) (p / nx) nx = p := by
    unfold IDX2D
    rw [Nat.mul_comm]
    exact Nat.div_add_mod p nx
  have e1 := copy_getD sp1 tbl nx ny zb1 h1x h1y hl1 (p % nx) (p / nx) ha hb
  have e2 := copy_getD sp2 tbl nx ny zb2 h2x h2y hl2 (p % nx) (p / nx) ha hb
  rw [hidx] at e1 e2
  rw [e1, e2]
  by_cases hc : p % nx < ny ∧ p / nx < nx
  · rw [if_pos hc, if_pos hc]
  · rw [if_neg hc, if_neg hc]
    have := hagree (p % nx) (p / nx) ha hb hc
    rw [hidx] at this
    exact this

/-- The index pairs of `copyLoopIndices` are those of the copy loop: the loop is the
fold of `gsl_spline2d_set` over them. -/
theorem copy_eq_foldl_indices (sp : gsl_spline2d K) (tbl : List (List K)) (nx ny : Nat)
    (zb : List K) :
    Interpolator2DInitialize_copy sp tbl nx ny zb =
      (copyLoopIndices nx ny).foldl
        (fun zb p => (gsl_spline2d_set sp zb p.1 p.2 (gsl_matrix_get tbl p.1 p.2)).2) zb := by
  unfold Interpolator2DInitialize_copy copyLoopIndices
  induction ny generalizing zb with
  | zero => rfl
  | succ n ih =>
    rw [List.range_succ, List.foldl_append, List.flatMap_append, List.foldl_append, ih]
    simp [List.foldl_map]

/-! ## The claims -/

/-- C1: on a successfully initialized grid, `Interpolator2DCalculate` succeeds if and only
if `x[0] ≤ qx ≤ x[nx-1]` and `y[0] ≤ qy ≤ y[ny-1]`, both ends inclusive; in particular
on the grid `x = [0,1]`, `y = [0,1]` it succeeds for `(0,0)`, `(1,1)`, `(0.5,0.5)` and
fails for `(-0.01,0.5)` and `(0.5,1.01)`. -/
theorem C1_calculate_succeeds_iff_in_range (s : interpolator_2d_t K) (bx by_ bz : List K)
    (hI : Initialized s bx by_ bz) :
    (∀ (qx qy : K) (z0 : Option K),
      (Interpolator2DCalculate s qx qy z0).1 = true ↔
        (bx.getD 0 0 ≤ qx ∧ qx ≤ bx.getD (s.nx - 1) 0 ∧
          by_.getD 0 0 ≤ qy ∧ qy ≤ by_.getD (s.ny - 1) 0)) ∧
    (bx = [0, 1] → by_ = [0, 1] → ∀ z0 : Option K,
      (Interpolator2DCalculate s 0 0 z0).1 = true ∧
      (Interpolator2DCalculate s 1 1 z0).1 = true ∧
      (Interpolator2DCalculate s (1 / 2) (1 / 2) z0).1 = true ∧
      (Interpolator2DCalculate s (-(1 / 100)) (1 / 2) z0).1 = false ∧
      (Interpolator2DCalculate s (1 / 2) (101 / 100) z0).1 = false) := by
  have key : ∀ (qx qy : K) (z0 : Option K),
      (Interpolator2DCalculate s qx qy z0).1 = true ↔ InRange bx by_ qx qy := by
    intro qx qy z0
    by_cases h : InRange bx by_ qx qy
    · rw [Calculate_of_inRange s bx by_ bz qx qy z0 hI h]
      simp [h]
    · rw [Calculate_of_not_inRange s bx by_ bz qx qy z0 hI h]
      simp [h]
  constructor
  · intro qx qy z0
    rw [key]
    unfold InRange
    rw [hI.x_len, hI.y_len]
  · intro hbx hby z0
    subst hbx hby
    have hin : ∀ qx qy : K, InRange [0, 1] [0, 1] qx qy ↔
        (0 ≤ qx ∧ qx ≤ 1 ∧ 0 ≤ qy ∧ qy ≤ 1) := by
      intro qx qy
      simp [InRange]
    have hout : ∀ (qx qy : K) (z0 : Option K), ¬ InRange [0, 1] [0, 1] qx qy →
        (Interpolator2DCalculate s qx qy z0).1 = false := by
      intro qx qy z0 h
      rw [Calculate_of_not_inRange s _ _ bz qx qy z0 hI h]
    refine ⟨(key 0 0 z0).mpr ?_, (key 1 1 z0).mpr ?_, (key _ _ z0).mpr ?_,
      hout _ _ z0 ?_, hout _ _ z0 ?_⟩
    · rw [hin]
      norm_num
    · rw [hin]
      norm_num
    · rw [hin]
      norm_num
    · rw [hin]
      norm_num
    · rw [hin]
      norm_num

/-- Witness of C1 on the example grid `x = [0,1]`, `y = [0,1]`. -/
theorem C1_witness :
    (∀ (qx qy : ℚ) (z0 : Option ℚ),
      (Interpolator2DCalculate demoGrid qx qy z0).1 = true ↔
        (([0, 1] : List ℚ).getD 0 0 ≤ qx ∧ qx ≤ ([0, 1] : List ℚ).getD (demoGrid.nx - 1) 0 ∧
          ([0, 1] : List ℚ).getD 0 0 ≤ qy ∧ qy ≤ ([0, 1] : List ℚ).getD (demoGrid.ny - 1) 0)) ∧
    (∀ z0 : Option ℚ,
      (Interpolator2DCalculate demoGrid 0 0 z0).1 = true ∧
      (Interpolator2DCalculate demoGrid 1 1 z0).1 = true ∧
      (Interpolator2DCalculate demoGrid (1 / 2) (1 / 2) z0).1 = true ∧
      (Interpolator2DCalculate demoGrid (-(1 / 100)) (1 / 2) z0).1 = false ∧
      (Interpolator2DCalculate demoGrid (1 / 2) (101 / 100) z0).1 = false) :=
  ⟨(C1_calculate_succeeds_iff_in_range demoGrid [0, 1] [0, 1] [10, 30, 20, 40]
      demoGrid_initialized).1,
   (C1_calculate_succeeds_iff_in_range demoGrid [0, 1] [0, 1] [10, 30, 20, 40]
      demoGrid_initialized).2 rfl rfl⟩

/-- C2: on a successfully initialized grid and for an in-range query, the value returned
by `Interpolator2DCalculate` is
`z[i][j]*(1-tx)*(1-ty) + z[i+1][j]*tx*(1-ty) + z[i][j+1]*(1-tx)*ty + z[i+1][j+1]*tx*ty`
where `(i, j)` is the enclosing cell, `tx = (qx - x[i])/(x[i+1] - x[i])` and
`ty = (qy - y[j])/(y[j+1] - y[j])`. -/
theorem C2_calculate_value_is_bilinear (s : interpolator_2d_t K) (bx by_ bz : List K)
    (qx qy : K) (z0 : Option K) (hI : Initialized s bx by_ bz)
    (h : InRange bx by_ qx qy) :
    ∃ i j, CellOf bx s.nx qx i ∧ CellOf by_ s.ny qy j ∧
      (Interpolator2DCalculate s qx qy z0).1 = true ∧
      (Interpolator2DCalculate s qx qy z0).2.1 = some
        (spec_bilinear (z_node bz s.nx i j) (z_node bz s.nx (i + 1) j)
          (z_node bz s.nx i (j + 1)) (z_node bz s.nx (i + 1) (j + 1))
          (spec_fraction qx (bx.getD i 0) (bx.getD (i + 1) 0))
          (spec_fraction qy (by_.getD j 0) (by_.getD (j + 1) 0))) := by
  have h' := h
  obtain ⟨h1, h2, h3, h4⟩ := h'
  rw [hI.x_len] at h2
  rw [hI.y_len] at h4
  have hx := axis_find_spec s.xacc bx s.nx qx hI.nx_ge hI.x_len hI.x_inc hI.xacc_ok h1 h2
  have hy := axis_find_spec s.yacc by_ s.ny qy hI.ny_ge hI.y_len hI.y_inc hI.yacc_ok h3 h4
  refine ⟨(axis_find s.xacc bx s.nx qx).1, (axis_find s.yacc by_ s.ny qy).1,
    hx.2.1, hy.2.1, ?_, ?_⟩
  · rw [Calculate_of_inRange s bx by_ bz qx qy z0 hI h]
  · rw [Calculate_of_inRange s bx by_ bz qx qy z0 hI h]
    simp only [bilinear_formula, spec_bilinear, spec_fraction, z_node, Option.some.injEq]
    ring

/-- Witness of C2: the query `(1/2, 1/2)` on the example grid. -/
theorem C2_witness :
    ∃ i j, CellOf ([0, 1] : List ℚ) demoGrid.nx (1 / 2) i ∧
      CellOf ([0, 1] : List ℚ) demoGrid.ny (1 / 2) j ∧
      (Interpolator2DCalculate demoGrid (1 / 2) (1 / 2) none).1 = true ∧
      (Interpolator2DCalculate demoGrid (1 / 2) (1 / 2) none).2.1 = some
        (spec_bilinear (z_node [10, 30, 20, 40] demoGrid.nx i j)
          (z_node [10, 30, 20, 40] demoGrid.nx (i + 1) j)
          (z_node [10, 30, 20, 40] demoGrid.nx i (j + 1))
          (z_node [10, 30, 20, 40] demoGrid.nx (i + 1) (j + 1))
          (spec_fraction (1 / 2) (([0, 1] : List ℚ).getD i 0) (([0, 1] : List ℚ).getD (i + 1) 0))
          (spec_fraction (1 / 2) (([0, 1] : List ℚ).getD j 0)
            (([0, 1] : List ℚ).getD (j + 1) 0))) :=
  C2_calculate_value_is_bilinear demoGrid [0, 1] [0, 1] [10, 30, 20, 40] (1 / 2) (1 / 2) none
    demoGrid_initialized (by norm_num [InRange])

/-- C3: on a created grid with `nx, ny ≥ 1` and input axes of lengths `nx` and `ny`,
`Interpolator2DInitialize` returns success if and only if both axes are strictly
increasing; the first element of each axis is stored unconditionally; and the returned
flag is the same for any other created grid of the same dimensions (it does not depend on
what the buffers held before the call). -/
theorem C3_initialize_succeeds_iff_strictly_increasing (s : interpolator_2d_t K)
    (xs ys : List K) (tbl : List (List K)) (hs : Created s) (hnx : 1 ≤ s.nx)
    (hny : 1 ≤ s.ny) (hxs : xs.length = s.nx) (hys : ys.length = s.ny) :
    ((Interpolator2DInitialize s xs ys tbl).1 = true ↔
      (StrictlyIncreasing xs ∧ StrictlyIncreasing ys)) ∧
    (∃ bx by_, (Interpolator2DInitialize s xs ys tbl).2.x = some bx ∧
      (Interpolator2DInitialize s xs ys tbl).2.y = some by_ ∧
      bx.getD 0 0 = xs.getD 0 0 ∧ by_.getD 0 0 = ys.getD 0 0) ∧
    (∀ (s' : interpolator_2d_t K) (tbl' : List (List K)), Created s' → s'.nx = s.nx →
      s'.ny = s.ny →
      (Interpolator2DInitialize s' xs ys tbl').1 = (Interpolator2DInitialize s xs ys tbl).1) := by
  refine ⟨Initialize_ret_iff s xs ys tbl hs hnx hny hxs hys, ?_, ?_⟩
  · obtain ⟨bx, hx, hxl⟩ := hs.x_buf
    obtain ⟨by_, hy, hyl⟩ := hs.y_buf
    obtain ⟨bz, hz, _⟩ := hs.z_buf
    obtain ⟨sp, hsp, _⟩ := hs.spline_obj
    rw [Initialize_eq s xs ys tbl bx by_ bz sp hx hy hz hsp]
    refine ⟨(Interpolator2DInitialize_axis xs s.nx true bx).2,
      (Interpolator2DInitialize_axis ys s.ny
        (Interpolator2DInitialize_axis xs s.nx true bx).1 by_).2, ?_, ?_,
      axis_head xs bx s.nx true hnx hxl, axis_head ys by_ s.ny _ hny hyl⟩
    · split <;> rfl
    · split <;> rfl
  · intro s' tbl' hs' hnx' hny'
    rw [Bool.eq_iff_iff, Initialize_ret_iff s xs ys tbl hs hnx hny hxs hys,
      Initialize_ret_iff s' xs ys tbl' hs' (by omega) (by omega) (by omega) (by omega)]

/-- Witness of C3: the created example grid with the axes `[0, 1]`, `[0, 1]`. -/
theorem C3_witness :
    ((Interpolator2DInitialize demoCreated [0, 1] [0, 1] demoTable).1 = true ↔
      (StrictlyIncreasing ([0, 1] : List ℚ) ∧ StrictlyIncreasing ([0, 1] : List ℚ))) ∧
    (∃ bx by_, (Interpolator2DInitialize demoCreated [0, 1] [0, 1] demoTable).2.x = some bx ∧
      (Interpolator2DInitialize demoCreated [0, 1] [0, 1] demoTable).2.y = some by_ ∧
      bx.getD 0 0 = ([0, 1] : List ℚ).getD 0 0 ∧ by_.getD 0 0 = ([0, 1] : List ℚ).getD 0 0) ∧
    (∀ (s' : interpolator_2d_t ℚ) (tbl' : List (List ℚ)), Created s' →
      s'.nx = demoCreated.nx → s'.ny = demoCreated.ny →
      (Interpolator2DInitialize s' [0, 1] [0, 1] tbl').1 =
        (Interpolator2DInitialize demoCreated [0, 1] [0, 1] demoTable).1) :=
  C3_initialize_succeeds_iff_strictly_increasing demoCreated [0, 1] [0, 1] demoTable
    demoCreated_created (by decide) (by decide) rfl rfl

/-- C4 (behaviour of the code at the failing input): on the grid `x = [0,1]`,
`y = [0,1]` initialized from the table with rows `10, 20` and `30, 40`, the call at the
node `(xs[1], ys[0]) = (1, 0)` succeeds and returns `30`, the table entry in row `1`,
column `0`, while the entry in row `0`, column `1` (the one representing
`f(xs[1], ys[0])`) is `20`; symmetrically the node `(xs[0], ys[1]) = (0, 1)` returns
`20`. -/
theorem C4_node_returns_transposed_entry :
    (Interpolator2DInitialize demoCreated [0, 1] [0, 1] demoTable).1 = true ∧
    (Interpolator2DCalculate demoGrid 1 0 none).1 = true ∧
    (Interpolator2DCalculate demoGrid 1 0 none).2.1 = some 30 ∧
    (Interpolator2DCalculate demoGrid 0 1 none).2.1 = some 20 ∧
    gsl_matrix_get demoTable 0 1 = 20 ∧ gsl_matrix_get demoTable 1 0 = 30 := by
  have h10 := Calculate_single_cell demoGrid 0 1 0 1 [10, 30, 20, 40] 1 0 none
    demoGrid_initialized (by norm_num) (by norm_num) (by norm_num) (by norm_num)
  have h01 := Calculate_single_cell demoGrid 0 1 0 1 [10, 30, 20, 40] 0 1 none
    demoGrid_initialized (by norm_num) (by norm_num) (by norm_num) (by norm_num)
  refine ⟨by decide, h10.1, ?_, ?_, by decide, by decide⟩
  · rw [h10.2]
    norm_num [bilinear_formula, IDX2D]
  · rw [h01.2]
    norm_num [bilinear_formula, IDX2D]

/-- C7: on a successfully initialized grid, a list of in-range queries issued in order
returns, for each query, the value obtained with a cold binary search on each axis,
whatever the accelerators cached; hence issuing the same queries in another order gives
each query the same answer; and for every valid cached index the accelerated lookup
returns the cell index of the cold binary search. -/
theorem C7_accelerator_never_changes_answer (s : interpolator_2d_t K) (bx by_ bz : List K)
    (qs : List (K × K)) (z0 : Option K) (hI : Initialized s bx by_ bz)
    (hqs : ∀ q ∈ qs, InRange bx by_ q.1 q.2) :
    runQueries s z0 qs = qs.map (fun q => (true, some (coldValue bx by_ bz q))) ∧
    (∀ qs' : List (K × K), List.Perm qs qs' →
      List.Perm (List.zip qs (runQueries s z0 qs)) (List.zip qs' (runQueries s z0 qs'))) ∧
    (∀ (a : gsl_interp_accel) (q : K), a.cache + 2 ≤ s.nx →
      bx.getD 0 0 ≤ q → q ≤ bx.getD (s.nx - 1) 0 →
      (gsl_interp_accel_find a bx s.nx q).1 = gsl_interp_bsearch bx q 0 (s.nx - 1)) ∧
    (∀ (a : gsl_interp_accel) (q : K), a.cache + 2 ≤ s.ny →
      by_.getD 0 0 ≤ q → q ≤ by_.getD (s.ny - 1) 0 →
      (gsl_interp_accel_find a by_ s.ny q).1 = gsl_interp_bsearch by_ q 0 (s.ny - 1)) := by
  have hrun : ∀ l : List (K × K), (∀ q ∈ l, InRange bx by_ q.1 q.2) →
      runQueries s z0 l = l.map (fun q => (true, some (coldValue bx by_ bz q))) := by
    intro l hl
    rw [runQueries_cold bx by_ bz l s z0 hI, coldRun_inRange bx by_ bz l z0 hl]
  refine ⟨hrun qs hqs, ?_, ?_, ?_⟩
  · intro qs' hperm
    have hqs' : ∀ q ∈ qs', InRange bx by_ q.1 q.2 := fun q hq => hqs q (hperm.mem_iff.mpr hq)
    rw [hrun qs hqs, hrun qs' hqs', List.zip_map_right, List.zip_map_right]
    have hz : ∀ l : List (K × K), List.zip l l = l.map (fun q => (q, q)) := by
      intro l
      induction l with
      | nil => rfl
      | cons a l ih => simp [ih]
    rw [hz, hz, List.map_map, List.map_map]
    exact hperm.map _
  · intro a q ha hlo hhi
    exact CellOf_unique bx s.nx q _ _ hI.x_len hI.x_inc
      (accel_find_cell a bx s.nx q ha hlo hhi).1 (bsearch_cell bx s.nx q hI.nx_ge hlo hhi)
  · intro a q ha hlo hhi
    exact CellOf_unique by_ s.ny q _ _ hI.y_len hI.y_inc
      (accel_find_cell a by_ s.ny q ha hlo hhi).1 (bsearch_cell by_ s.ny q hI.ny_ge hlo hhi)

/-- Witness of C7: three in-range queries on the example grid. -/
theorem C7_witness :
    runQueries demoGrid none [(1, 0), (0, 1), (1 / 2, 1 / 2)] =
      [(1, 0), (0, 1), (1 / 2, 1 / 2)].map
        (fun q => (true, some (coldValue [0, 1] [0, 1] [10, 30, 20, 40] q))) :=
  (C7_accelerator_never_changes_answer demoGrid [0, 1] [0, 1] [10, 30, 20, 40]
    [(1, 0), (0, 1), (1 / 2, 1 / 2)] none demoGrid_initialized
    (by
      intro q hq
      simp only [List.mem_cons, List.mem_singleton, List.not_mem_nil, or_false] at hq
      rcases hq with rfl | rfl | rfl <;> norm_num [InRange])).1

/-- C8: on a single-cell grid (`nx = ny = 2`) with strictly increasing axes and corner
values `z00, z10, z01, z11`, the call at the midpoint of the cell succeeds and returns
`(z00 + z10 + z01 + z11) / 4`. -/
theorem C8_midpoint_is_corner_average (s : interpolator_2d_t K)
    (x0 x1 y0 y1 z00 z10 z01 z11 : K) (z0 : Option K)
    (hI : Initialized s [x0, x1] [y0, y1] [z00, z10, z01, z11]) :
    (Interpolator2DCalculate s ((x0 + x1) / 2) ((y0 + y1) / 2) z0).1 = true ∧
    (Interpolator2DCalculate s ((x0 + x1) / 2) ((y0 + y1) / 2) z0).2.1 =
      some ((z00 + z10 + z01 + z11) / 4) := by
  have hx : x0 < x1 := by
    have := hI.x_inc 0 (by simp)
    simpa using this
  have hy : y0 < y1 := by
    have := hI.y_inc 0 (by simp)
    simpa using this
  have h := Calculate_single_cell s x0 x1 y0 y1 [z00, z10, z01, z11]
    ((x0 + x1) / 2) ((y0 + y1) / 2) z0 hI (by linarith) (by linarith) (by linarith)
    (by linarith)
  refine ⟨h.1, ?_⟩
  rw [h.2]
  have hdx : x1 - x0 ≠ 0 := by
    intro h0
    linarith
  have hdy : y1 - y0 ≠ 0 := by
    intro h0
    linarith
  simp only [bilinear_formula, IDX2D, Option.some.injEq]
  norm_num
  field_simp
  ring

/-- Witness of C8: the midpoint of the example grid. -/
theorem C8_witness :
    (Interpolator2DCalculate demoGrid ((0 + 1) / 2) ((0 + 1) / 2) none).1 = true ∧
    (Interpolator2DCalculate demoGrid ((0 + 1) / 2) ((0 + 1) / 2) none).2.1 =
      some ((10 + 30 + 20 + 40) / 4) :=
  C8_midpoint_is_corner_average demoGrid 0 1 0 1 10 30 20 40 none demoGrid_initialized

/-- C5 (as amended): when `Interpolator2DInitialize` fails on a previously successfully
initialized grid, `z`, the dimensions, the accelerators and the data held by the
interpolation object are exactly what they were before the call; the buffers `x` and `y`
keep their lengths and are partially overwritten: `x[0]` takes `xs[0]`, and each later
`x[i]` takes `xs[i]` when `xs[i]` exceeds the stored `x[i-1]` and keeps its previous
content otherwise, likewise `y`.  A subsequent `Interpolator2DCalculate` fails for every
query outside `[x[0], x[nx-1]] × [y[0], y[ny-1]]` of these buffers, and for a query
inside that box and inside the previous bounding box it succeeds and returns the value
interpolated from the previous dataset. -/
theorem C5_failed_initialize_keeps_previous_dataset (s : interpolator_2d_t K)
    (bx by_ bz xs ys : List K) (tbl : List (List K)) (hI : Initialized s bx by_ bz)
    (hfail : (Interpolator2DInitialize s xs ys tbl).1 = false) :
    (Interpolator2DInitialize s xs ys tbl).2.z = s.z ∧
    (Interpolator2DInitialize s xs ys tbl).2.spline = s.spline ∧
    (Interpolator2DInitialize s xs ys tbl).2.xacc = s.xacc ∧
    (Interpolator2DInitialize s xs ys tbl).2.yacc = s.yacc ∧
    (Interpolator2DInitialize s xs ys tbl).2.nx = s.nx ∧
    (Interpolator2DInitialize s xs ys tbl).2.ny = s.ny ∧
    ∃ bx' by', (Interpolator2DInitialize s xs ys tbl).2.x = some bx' ∧
      (Interpolator2DInitialize s xs ys tbl).2.y = some by' ∧
      bx'.length = s.nx ∧ by'.length = s.ny ∧
      bx'.getD 0 0 = xs.getD 0 0 ∧ by'.getD 0 0 = ys.getD 0 0 ∧
      (∀ i, 1 ≤ i → i < s.nx →
        bx'.getD i 0 =
          if xs.getD i 0 > bx'.getD (i - 1) 0 then xs.getD i 0 else bx.getD i 0) ∧
      (∀ i, 1 ≤ i → i < s.ny →
        by'.getD i 0 =
          if ys.getD i 0 > by'.getD (i - 1) 0 then ys.getD i 0 else by_.getD i 0) ∧
      ∀ (qx qy : K) (z0 : Option K),
        (¬ (bx'.getD 0 0 ≤ qx ∧ qx ≤ bx'.getD (s.nx - 1) 0 ∧
            by'.getD 0 0 ≤ qy ∧ qy ≤ by'.getD (s.ny - 1) 0) →
          (Interpolator2DCalculate (Interpolator2DInitialize s xs ys tbl).2 qx qy z0).1
            = false) ∧
        ((bx'.getD 0 0 ≤ qx ∧ qx ≤ bx'.getD (s.nx - 1) 0 ∧
            by'.getD 0 0 ≤ qy ∧ qy ≤ by'.getD (s.ny - 1) 0) →
          InRange bx by_ qx qy →
          (Interpolator2DCalculate (Interpolator2DInitialize s xs ys tbl).2 qx qy z0).1
            = true ∧
          (Interpolator2DCalculate (Interpolator2DInitialize s xs ys tbl).2 qx qy z0).2.1 =
            (Interpolator2DCalculate s qx qy z0).2.1) := by
  obtain ⟨bx', by', heq, hlx, hly, hx0, hy0, hxe, hye⟩ :=
    Initialize_failed_buffers s bx by_ bz xs ys tbl hI hfail
  rw [heq]
  refine ⟨rfl, rfl, rfl, rfl, rfl, rfl, bx', by', rfl, rfl, hlx, hly, hx0, hy0, hxe, hye, ?_⟩
  intro qx qy z0
  have hst := Calculate_stale s bx by_ bz bx' by' qx qy z0 hI
  constructor
  · intro hout
    cases hc : (Interpolator2DCalculate { s with x := some bx', y := some by' } qx qy z0).1 with
    | false => rfl
    | true => exact absurd (hst.1.mp hc) hout
  · intro hbox hin
    have hs := hst.1.mpr hbox
    exact ⟨hs, hst.2 hs hin⟩

/-- Witness of C5 (as amended): the example grid re-initialized with the decreasing axis
`[-1, -2]`. -/
theorem C5_witness :
    (Interpolator2DInitialize demoGrid [-1, -2] [0, 1] demoTable).1 = false ∧
    (Interpolator2DInitialize demoGrid [-1, -2] [0, 1] demoTable).2.z = demoGrid.z ∧
    (Interpolator2DInitialize demoGrid [-1, -2] [0, 1] demoTable).2.spline = demoGrid.spline :=
  ⟨by decide,
   (C5_failed_initialize_keeps_previous_dataset demoGrid [0, 1] [0, 1] [10, 30, 20, 40]
      [-1, -2] [0, 1] demoTable demoGrid_initialized (by decide)).1,
   (C5_failed_initialize_keeps_previous_dataset demoGrid [0, 1] [0, 1] [10, 30, 20, 40]
      [-1, -2] [0, 1] demoTable demoGrid_initialized (by decide)).2.1⟩

/-- Counterexample to C5 as stated: the example grid (`x = [0,1]`, `y = [0,1]`) is
re-initialized with the axis `[-1, -2]`; the call fails, the stored `x` becomes
`[-1, 1]`, and yet the query `(1/2, 1/2)` still succeeds. -/
theorem C5_counterexample :
    Initialized demoGrid [0, 1] [0, 1] [10, 30, 20, 40] ∧
    (Interpolator2DInitialize demoGrid [-1, -2] [0, 1] demoTable).1 = false ∧
    (Interpolator2DInitialize demoGrid [-1, -2] [0, 1] demoTable).2.x = some [-1, 1] ∧
    ¬ (((Interpolator2DInitialize demoGrid [-1, -2] [0, 1] demoTable).2.x = demoGrid.x ∧
        (Interpolator2DInitialize demoGrid [-1, -2] [0, 1] demoTable).2.y = demoGrid.y ∧
        (Interpolator2DInitialize demoGrid [-1, -2] [0, 1] demoTable).2.z = demoGrid.z) ∨
      (∀ (qx qy : ℚ) (z0 : Option ℚ),
        (Interpolator2DCalculate (Interpolator2DInitialize demoGrid [-1, -2] [0, 1]
          demoTable).2 qx qy z0).1 = false)) := by
  refine ⟨demoGrid_initialized, by decide, by decide, ?_⟩
  rintro (⟨hx, _, _⟩ | hall)
  · revert hx
    decide
  · have h := hall (1 / 2) (1 / 2) none
    obtain ⟨bx', by', heq, _, _, _, _⟩ := Initialize_failed demoGrid [0, 1] [0, 1]
      [10, 30, 20, 40] [-1, -2] [0, 1] demoTable demoGrid_initialized (by decide)
    have hx2 : (Interpolator2DInitialize demoGrid [-1, -2] [0, 1] demoTable).2.x =
        some [-1, 1] := by decide
    have hy2 : (Interpolator2DInitialize demoGrid [-1, -2] [0, 1] demoTable).2.y =
        some [0, 1] := by decide
    rw [heq] at hx2 hy2 h
    simp only [Option.some.injEq] at hx2 hy2
    subst hx2 hy2
    have hs := (Calculate_stale demoGrid [0, 1] [0, 1] [10, 30, 20, 40] [-1, 1] [0, 1]
      (1 / 2) (1 / 2) none demoGrid_initialized).1.mpr (by
        have hnx : demoGrid.nx = 2 := rfl
        have hny : demoGrid.ny = 2 := rfl
        rw [hnx, hny]
        norm_num)
    rw [hs] at h
    exact absurd h (by simp)

/-- C9: on a successfully initialized grid (strictly increasing axes of at least two
nodes) and for a query that passes the range check, the cell index located on each axis,
whatever the accelerator cached, satisfies `0 ≤ i ≤ n - 2` and
`coord[i] ≤ q < coord[i+1]`, except that `q = coord[n-1]` resolves to `i = n - 2`; hence
the nodes `i, i+1` and `j, j+1` read by the evaluation are within the axis buffers and the
four corner positions are within the value buffer. -/
theorem C9_located_cell_is_in_bounds (s : interpolator_2d_t K) (bx by_ bz : List K)
    (qx qy : K) (z0 : Option K) (hI : Initialized s bx by_ bz)
    (h : InRange bx by_ qx qy) :
    CellOf bx s.nx qx (axis_find s.xacc bx s.nx qx).1 ∧
    CellOf by_ s.ny qy (axis_find s.yacc by_ s.ny qy).1 ∧
    (qx = bx.getD (s.nx - 1) 0 → (axis_find s.xacc bx s.nx qx).1 = s.nx - 2) ∧
    (qy = by_.getD (s.ny - 1) 0 → (axis_find s.yacc by_ s.ny qy).1 = s.ny - 2) ∧
    (axis_find s.xacc bx s.nx qx).1 + 1 < bx.length ∧
    (axis_find s.yacc by_ s.ny qy).1 + 1 < by_.length ∧
    IDX2D ((axis_find s.xacc bx s.nx qx).1 + 1) ((axis_find s.yacc by_ s.ny qy).1 + 1) s.nx <
      bz.length ∧
    (Interpolator2DCalculate s qx qy z0).2.1 = some
      (bilinear_formula bx by_ bz s.nx (axis_find s.xacc bx s.nx qx).1
        (axis_find s.yacc by_ s.ny qy).1 qx qy) := by
  have h' := h
  obtain ⟨h1, h2, h3, h4⟩ := h'
  rw [hI.x_len] at h2
  rw [hI.y_len] at h4
  have hx := (axis_find_spec s.xacc bx s.nx qx hI.nx_ge hI.x_len hI.x_inc hI.xacc_ok h1 h2).2.1
  have hy := (axis_find_spec s.yacc by_ s.ny qy hI.ny_ge hI.y_len hI.y_inc hI.yacc_ok h3 h4).2.1
  have hnx := hI.nx_ge
  have hny := hI.ny_ge
  have topx : CellOf bx s.nx (bx.getD (s.nx - 1) 0) (s.nx - 2) :=
    ⟨by omega, increasing_le bx hI.x_inc _ _ (by omega) (by rw [hI.x_len]; omega),
      Or.inr ⟨rfl, by omega⟩⟩
  have topy : CellOf by_ s.ny (by_.getD (s.ny - 1) 0) (s.ny - 2) :=
    ⟨by omega, increasing_le by_ hI.y_inc _ _ (by omega) (by rw [hI.y_len]; omega),
      Or.inr ⟨rfl, by omega⟩⟩
  refine ⟨hx, hy, ?_, ?_, ?_, ?_, ?_, ?_⟩
  · intro hq
    rw [← hq] at topx
    exact CellOf_unique bx s.nx qx _ _ hI.x_len hI.x_inc hx topx
  · intro hq
    rw [← hq] at topy
    exact CellOf_unique by_ s.ny qy _ _ hI.y_len hI.y_inc hy topy
  · rw [hI.x_len]
    have := hx.1
    omega
  · rw [hI.y_len]
    have := hy.1
    omega
  · rw [hI.z_len]
    exact IDX2D_lt _ _ _ _ (by have := hx.1; omega) (by have := hy.1; omega)
  · rw [Calculate_of_inRange s bx by_ bz qx qy z0 hI h]

/-- Witness of C9: the final grid node `(1, 1)` of the example grid. -/
theorem C9_witness :
    CellOf ([0, 1] : List ℚ) demoGrid.nx 1
      (axis_find demoGrid.xacc ([0, 1] : List ℚ) demoGrid.nx 1).1 ∧
    (axis_find demoGrid.xacc ([0, 1] : List ℚ) demoGrid.nx 1).1 + 1 < ([0, 1] : List ℚ).length :=
  ⟨(C9_located_cell_is_in_bounds demoGrid [0, 1] [0, 1] [10, 30, 20, 40] 1 1 none
      demoGrid_initialized (by norm_num [InRange])).1,
   (C9_located_cell_is_in_bounds demoGrid [0, 1] [0, 1] [10, 30, 20, 40] 1 1 none
      demoGrid_initialized (by norm_num [InRange])).2.2.2.2.1⟩

/-- Re-initialization where the copy loop covers the grid, or the leftover memory is the
same.  Take a created grid `s` (at least two nodes per axis) and two valid datasets `A`
and `B` of its dimensions.  After `Interpolator2DInitialize` with `A`, any list of
calculate calls, and `Interpolator2DInitialize` with `B`, every list of queries returns the
same flags and values as on a created grid `s'` of the same dimensions initialized with
`B` only, provided `nx = ny` or the value buffer of `s'` starts with the contents `s`
started with; the answers are those of the accelerator-free description. -/
theorem reinitialize_reflects_second_dataset (s s' : interpolator_2d_t K)
    (xsA ysA xsB ysB : List K) (tblA tblB : List (List K))
    (qsA qs : List (K × K)) (zA z0 : Option K)
    (hs : Created s) (hs' : Created s') (hnx : 2 ≤ s.nx) (hny : 2 ≤ s.ny)
    (hdx : s'.nx = s.nx) (hdy : s'.ny = s.ny)
    (hxa : AccOK s.xacc s.nx) (hya : AccOK s.yacc s.ny)
    (hxa' : AccOK s'.xacc s'.nx) (hya' : AccOK s'.yacc s'.ny)
    (hfresh : s.nx = s.ny ∨ s'.z = s.z)
    (hxA : xsA.length = s.nx) (hyA : ysA.length = s.ny)
    (hxAi : StrictlyIncreasing xsA) (hyAi : StrictlyIncreasing ysA)
    (hxB : xsB.length = s.nx) (hyB : ysB.length = s.ny)
    (hxBi : StrictlyIncreasing xsB) (hyBi : StrictlyIncreasing ysB) :
    (Interpolator2DInitialize s xsA ysA tblA).1 = true ∧
    (Interpolator2DInitialize
      (afterQueries (Interpolator2DInitialize s xsA ysA tblA).2 zA qsA) xsB ysB tblB).1 = true ∧
    (Interpolator2DInitialize s' xsB ysB tblB).1 = true ∧
    runQueries (Interpolator2DInitialize
        (afterQueries (Interpolator2DInitialize s xsA ysA tblA).2 zA qsA) xsB ysB tblB).2 z0 qs =
      runQueries (Interpolator2DInitialize s' xsB ysB tblB).2 z0 qs ∧
    ∃ bzB, (Interpolator2DInitialize s' xsB ysB tblB).2.z = some bzB ∧
      runQueries (Interpolator2DInitialize
        (afterQueries (Interpolator2DInitialize s xsA ysA tblA).2 zA qsA) xsB ysB tblB).2 z0 qs =
        coldRun xsB ysB bzB z0 qs := by
  obtain ⟨bz, hz, hzl⟩ := hs.z_buf
  obtain ⟨sp, hsp, hspx, hspy, _, _, _⟩ := hs.spline_obj
  obtain ⟨bz', hz', hzl'⟩ := hs'.z_buf
  obtain ⟨sp', hsp', hspx', hspy', _, _, _⟩ := hs'.spline_obj
  -- first initialization, with A
  obtain ⟨hA1, hAI, hAnx, hAny, _, _⟩ := Initialize_establishes s xsA ysA tblA bz sp hs hz hsp
    hnx hny hxa hya hxA hyA hxAi hyAi
  -- the calculate calls in between
  have hQ := afterQueries_initialized xsA ysA _ qsA _ zA hAI
  generalize afterQueries (Interpolator2DInitialize s xsA ysA tblA).2 zA qsA = s2 at hQ ⊢
  have h2nx : s2.nx = s.nx := by rw [← hQ.x_len, hxA]
  have h2ny : s2.ny = s.ny := by rw [← hQ.y_len, hyA]
  -- second initialization, with B
  obtain ⟨hB1, hBI, _, _, _, _⟩ := Initialize_establishes s2 xsB ysB tblB _ _
    (Initialized_created s2 _ _ _ hQ) hQ.hz hQ.hspline (by omega) (by omega)
    hQ.xacc_ok hQ.yacc_ok (by omega) (by omega) hxBi hyBi
  -- the fresh grid, with B only
  obtain ⟨hF1, hFI, _, _, _, _⟩ := Initialize_establishes s' xsB ysB tblB bz' sp' hs' hz' hsp'
    (by omega) (by omega) hxa' hya' (by omega) (by omega) hxBi hyBi
  -- both hold the same values
  have hzeq : Interpolator2DInitialize_copy
      { xsize := s2.nx, ysize := s2.ny,
        xmin := xsA.getD 0 0, xmax := xsA.getD (s2.nx - 1) 0,
        ymin := ysA.getD 0 0, ymax := ysA.getD (s2.ny - 1) 0,
        xarr := xsA, yarr := ysA,
        zarr := Interpolator2DInitialize_copy sp tblA s.nx s.ny bz }
      tblB s2.nx s2.ny (Interpolator2DInitialize_copy sp tblA s.nx s.ny bz) =
      Interpolator2DInitialize_copy sp' tblB s'.nx s'.ny bz' := by
    rw [h2nx, h2ny, hdx, hdy]
    apply copy_eq_of_agree _ _ tblB s.nx s.ny _ _ rfl rfl (by rw [hspx', hdx])
      (by rw [hspy', hdy]) (copy_length sp tblA s.nx s.ny bz hspx hspy hzl)
      (by rw [hzl', hdx, hdy])
    intro a b ha hb hnot
    rw [copy_getD sp tblA s.nx s.ny bz hspx hspy hzl a b ha hb, if_neg hnot]
    rcases hfresh with hsq | hsame
    · exact absurd ⟨by omega, by omega⟩ hnot
    · rw [hz, hz'] at hsame
      cases hsame
      rfl
  rw [hzeq] at hBI
  refine ⟨hA1, hB1, hF1, ?_, _, hFI.hz, ?_⟩
  · rw [runQueries_cold xsB ysB _ qs _ z0 hBI, runQueries_cold xsB ysB _ qs _ z0 hFI]
  · rw [runQueries_cold xsB ysB _ qs _ z0 hBI]

/-- The created 2×2 example grid initialized with `x = y = [0, 1]`, queried, and
re-initialized with `x = y = [2, 3]` answers as the grid initialized with `[2, 3]` only. -/
theorem reinitialize_example :
    runQueries (Interpolator2DInitialize
        (afterQueries (Interpolator2DInitialize demoCreated [0, 1] [0, 1] demoTable).2 none
          [(1, 1), (0, 0)]) [2, 3] [2, 3] [[1, 2], [3, 4]]).2 none [(2, 3), (5 / 2, 5 / 2)] =
      runQueries (Interpolator2DInitialize demoCreated [2, 3] [2, 3] [[1, 2], [3, 4]]).2 none
        [(2, 3), (5 / 2, 5 / 2)] :=
  (reinitialize_reflects_second_dataset demoCreated demoCreated [0, 1] [0, 1] [2, 3] [2, 3]
    demoTable [[1, 2], [3, 4]] [(1, 1), (0, 0)] [(2, 3), (5 / 2, 5 / 2)] none none
    demoCreated_created demoCreated_created (by decide) (by decide) rfl rfl
    demoCreated_accOK.1 demoCreated_accOK.2 demoCreated_accOK.1 demoCreated_accOK.2
    (Or.inl rfl) rfl rfl
    (strictlyIncreasing_pair 0 1 (by norm_num)) (strictlyIncreasing_pair 0 1 (by norm_num))
    rfl rfl
    (strictlyIncreasing_pair 2 3 (by norm_num))
    (strictlyIncreasing_pair 2 3 (by norm_num))).2.2.2.1

/-- C10 (behaviour of the code at the failing input): on a 2×3 grid (`nx = 2`, `ny = 3`)
the copy loop, which is the fold of `gsl_spline2d_set` over `copyLoopIndices`, uses the
index pair `(2, 0)`, whose first index is outside the `nx = 2`
x-nodes of the value storage, so that `gsl_spline2d_set` raises a range error and writes
nothing; `Interpolator2DInitialize` nevertheless returns success, and the nodes at
y-index `2` (positions `4` and `5` of `z`) keep the leftover content `7`: the table row
`50, 60` is never stored. -/
theorem C10_nonsquare_copy_leaves_nodes_unwritten :
    (∀ (sp : gsl_spline2d ℚ) (tbl : List (List ℚ)) (zb : List ℚ),
      Interpolator2DInitialize_copy sp tbl 2 3 zb =
        (copyLoopIndices 2 3).foldl
          (fun zb p => (gsl_spline2d_set sp zb p.1 p.2 (gsl_matrix_get tbl p.1 p.2)).2) zb) ∧
    (2, 0) ∈ copyLoopIndices 2 3 ∧
    (∀ (sp : gsl_spline2d ℚ) (zb : List ℚ) (v : ℚ), sp.xsize = 2 →
      gsl_spline2d_set sp zb 2 0 v = (GSL_ERANGE, zb)) ∧
    Created demoCreated23 ∧ demoCreated23.nx = 2 ∧ demoCreated23.ny = 3 ∧
    (Interpolator2DInitialize demoCreated23 [0, 1] [0, 1, 2] demoTable23).1 = true ∧
    (Interpolator2DInitialize demoCreated23 [0, 1] [0, 1, 2] demoTable23).2.z =
      some [10, 30, 20, 40, 7, 7] := by
  refine ⟨?_, by decide, ?_, ?_, rfl, rfl, by decide, by decide⟩
  · intro sp tbl zb
    exact copy_eq_foldl_indices sp tbl 2 3 zb
  · intro sp zb v hx
    simp [gsl_spline2d_set, hx]
  · exact (Create_created demoBlank [7, 7] [7, 7, 7] [7, 7, 7, 7, 7, 7] 2 3 (by norm_num)
      (by norm_num) (by norm_num)).2.1

/-! ## Creation and destruction -/

/-- The flag and the instance of the traced run are those of `Interpolator2DCreate`. -/
theorem Create_traced_eq (self : interpolator_2d_t K) (hx hy hz : Option (List K))
    (nx ny : Nat) :
    ((Interpolator2DCreate_traced self hx hy hz nx ny).ret,
      (Interpolator2DCreate_traced self hx hy hz nx ny).self) =
      Interpolator2DCreate self hx hy hz nx ny := by
  cases hx <;> cases hy <;> cases hz <;>
    simp [Interpolator2DCreate_traced, Interpolator2DCreate, malloc]

/-- C11 (behaviour of the code at the failing input): for `nx = 65536`, `ny = 65537` the
size computed for `z` is `524288` bytes, that is `65536` doubles, while `nx * ny` doubles
are `34360262656` bytes; the call succeeds with a value buffer of `65536` entries for a
grid of `4295032832` nodes.  The two axis sizes are `8 * nx` and `8 * ny`. -/
theorem C11_z_size_wraps_around :
    z_bytes 65536 65537 = 524288 ∧
    8 * (65536 * 65537) = 34360262656 ∧
    axis_bytes 65536 = 8 * 65536 ∧ axis_bytes 65537 = 8 * 65537 ∧
    (Interpolator2DCreate_traced demoBlank (some []) (some []) (some []) 65536 65537).ret
      = true ∧
    (Interpolator2DCreate_traced demoBlank (some []) (some []) (some []) 65536 65537).requested
      = [(Buffer.x, 524288), (Buffer.y, 524296), (Buffer.z, 524288)] ∧
    (∃ bz, (Interpolator2DCreate demoBlank (some []) (some []) (some []) 65536 65537).2.z
        = some bz ∧ bz.length = 65536) ∧
    (Interpolator2DCreate demoBlank (some []) (some []) (some []) 65536 65537).2.nx
        * (Interpolator2DCreate demoBlank (some []) (some []) (some []) 65536 65537).2.ny
      = 4295032832 := by
  have hz : z_bytes 65536 65537 = 524288 := by
    norm_num [z_bytes, sizeof_double]
  have hx : axis_bytes 65536 = 524288 := by
    norm_num [axis_bytes, sizeof_double]
  have hy : axis_bytes 65537 = 524296 := by
    norm_num [axis_bytes, sizeof_double]
  refine ⟨hz, by norm_num, by rw [hx], by rw [hy], ?_, ?_, ?_, ?_⟩
  · simp [Interpolator2DCreate_traced, malloc]
  · simp [Interpolator2DCreate_traced, malloc, hx, hy, hz]
  · refine ⟨(List.range (z_bytes 65536 65537 / sizeof_double)).map
      (fun k => ([] : List ℚ).getD k 0), ?_, ?_⟩
    · simp [Interpolator2DCreate, malloc]
    · rw [List.length_map, List.length_range, hz]
      rfl
  · simp [Interpolator2DCreate, malloc]

/-- C12: `Interpolator2DCreate` returns failure if and only if one of the three buffer
allocations (`x`, `y`, `z`, attempted in that order, a later one only after the earlier
ones succeeded) fails; on failure every buffer that had been allocated is passed to
`free` and the three buffer fields are null; on success nothing is freed, the three
buffer fields are non-null and `nx`, `ny` hold the requested dimensions. -/
theorem C12_create_fails_iff_allocation_fails (self : interpolator_2d_t K)
    (hx hy hz : Option (List K)) (nx ny : Nat) :
    ((Interpolator2DCreate self hx hy hz nx ny).1 = false ↔
      (hx = none ∨ hy = none ∨ hz = none)) ∧
    ((Interpolator2DCreate_traced self hx hy hz nx ny).ret,
      (Interpolator2DCreate_traced self hx hy hz nx ny).self) =
      Interpolator2DCreate self hx hy hz nx ny ∧
    (Interpolator2DCreate_traced self hx hy hz nx ny).requested.map Prod.fst =
      [Buffer.x, Buffer.y, Buffer.z].take
        ((Interpolator2DCreate_traced self hx hy hz nx ny).allocated.length + 1) ∧
    ((Interpolator2DCreate self hx hy hz nx ny).1 = false →
      (Interpolator2DCreate_traced self hx hy hz nx ny).freed =
        (Interpolator2DCreate_traced self hx hy hz nx ny).allocated ∧
      (Interpolator2DCreate self hx hy hz nx ny).2.x = none ∧
      (Interpolator2DCreate self hx hy hz nx ny).2.y = none ∧
      (Interpolator2DCreate self hx hy hz nx ny).2.z = none) ∧
    ((Interpolator2DCreate self hx hy hz nx ny).1 = true →
      (Interpolator2DCreate_traced self hx hy hz nx ny).freed = [] ∧
      (Interpolator2DCreate_traced self hx hy hz nx ny).allocated =
        [Buffer.x, Buffer.y, Buffer.z] ∧
      (Interpolator2DCreate self hx hy hz nx ny).2.x ≠ none ∧
      (Interpolator2DCreate self hx hy hz nx ny).2.y ≠ none ∧
      (Interpolator2DCreate self hx hy hz nx ny).2.z ≠ none ∧
      (Interpolator2DCreate self hx hy hz nx ny).2.nx = nx ∧
      (Interpolator2DCreate self hx hy hz nx ny).2.ny = ny) := by
  refine ⟨?_, Create_traced_eq self hx hy hz nx ny, ?_, ?_, ?_⟩
  · cases hx <;> cases hy <;> cases hz <;> simp [Interpolator2DCreate, malloc]
  · cases hx <;> cases hy <;> cases hz <;> simp [Interpolator2DCreate_traced, malloc]
  · cases hx <;> cases hy <;> cases hz <;>
      simp [Interpolator2DCreate_traced, Interpolator2DCreate, malloc]
  · cases hx <;> cases hy <;> cases hz <;>
      simp [Interpolator2DCreate_traced, Interpolator2DCreate, malloc]

/-- C15: `Interpolator2DDestroy` always returns success and leaves the buffer fields
`x`, `y`, `z` and the handles `spline`, `xacc`, `yacc` null, whatever the instance (in
particular one produced by a successful `Interpolator2DCreate`, initialized or not); the
dimensions are left as they were. -/
theorem C15_destroy_succeeds_and_nulls_handles (self : interpolator_2d_t K) :
    (Interpolator2DDestroy self).1 = true ∧
    (Interpolator2DDestroy self).2.x = none ∧
    (Interpolator2DDestroy self).2.y = none ∧
    (Interpolator2DDestroy self).2.z = none ∧
    (Interpolator2DDestroy self).2.spline = none ∧
    (Interpolator2DDestroy self).2.xacc = none ∧
    (Interpolator2DDestroy self).2.yacc = none ∧
    (Interpolator2DDestroy self).2.nx = self.nx ∧
    (Interpolator2DDestroy self).2.ny = self.ny ∧
    (∀ (hx hy hz : Option (List K)) (nx ny : Nat) (xs ys : List K) (tbl : List (List K)),
      (Interpolator2DDestroy (Interpolator2DCreate self hx hy hz nx ny).2).1 = true ∧
      (Interpolator2DDestroy (Interpolator2DInitialize
        (Interpolator2DCreate self hx hy hz nx ny).2 xs ys tbl).2).1 = true ∧
      (Interpolator2DDestroy (Interpolator2DInitialize
        (Interpolator2DCreate self hx hy hz nx ny).2 xs ys tbl).2).2.spline = none) :=
  ⟨rfl, rfl, rfl, rfl, rfl, rfl, rfl, rfl, rfl, fun _ _ _ _ _ _ _ _ => ⟨rfl, rfl, rfl⟩⟩

/-- C16: `Interpolator2DCalculate` treats the grid data as read-only: whatever the
instance and the query, and whether the call succeeds or fails, the buffers `x`, `y`,
`z`, the dimensions and the interpolation object are the same after the call as before
(only the accelerators may differ); when the call fails the accelerators are unchanged
too and the caller's output value is left as it was. -/
theorem C16_calculate_leaves_grid_data_unchanged (self : interpolator_2d_t K) (x y : K)
    (z : Option K) :
    (Interpolator2DCalculate self x y z).2.2.x = self.x ∧
    (Interpolator2DCalculate self x y z).2.2.y = self.y ∧
    (Interpolator2DCalculate self x y z).2.2.z = self.z ∧
    (Interpolator2DCalculate self x y z).2.2.nx = self.nx ∧
    (Interpolator2DCalculate self x y z).2.2.ny = self.ny ∧
    (Interpolator2DCalculate self x y z).2.2.spline = self.spline ∧
    ((Interpolator2DCalculate self x y z).1 = false →
      (Interpolator2DCalculate self x y z).2.1 = z ∧
      (Interpolator2DCalculate self x y z).2.2 = self) := by
  unfold Interpolator2DCalculate
  split
  · split
    · simp
    · simp
  · simp

/-! ## Shape of the interpolant -/

/-- A bilinear combination with fractions in `[0, 1]` lies between any lower and upper
bound of the four values. -/
theorem bilinear_between (a b c d t u lo hi : K) (ht0 : 0 ≤ t) (ht1 : t ≤ 1)
    (hu0 : 0 ≤ u) (hu1 : u ≤ 1)
    (hlo : lo ≤ a ∧ lo ≤ b ∧ lo ≤ c ∧ lo ≤ d) (hhi : a ≤ hi ∧ b ≤ hi ∧ c ≤ hi ∧ d ≤ hi) :
    lo ≤ spec_bilinear a b c d t u ∧ spec_bilinear a b c d t u ≤ hi := by
  have w1 : 0 ≤ (1 - t) * (1 - u) := mul_nonneg (by linarith) (by linarith)
  have w2 : 0 ≤ t * (1 - u) := mul_nonneg ht0 (by linarith)
  have w3 : 0 ≤ (1 - t) * u := mul_nonneg (by linarith) hu0
  have w4 : 0 ≤ t * u := mul_nonneg ht0 hu0
  unfold spec_bilinear
  constructor
  · have e : a * (1 - t) * (1 - u) + b * t * (1 - u) + c * (1 - t) * u + d * t * u =
        lo + ((1 - t) * (1 - u) * (a - lo) + t * (1 - u) * (b - lo) +
          (1 - t) * u * (c - lo) + t * u * (d - lo)) := by ring
    rw [e]
    have := mul_nonneg w1 (sub_nonneg.mpr hlo.1)
    have := mul_nonneg w2 (sub_nonneg.mpr hlo.2.1)
    have := mul_nonneg w3 (sub_nonneg.mpr hlo.2.2.1)
    have := mul_nonneg w4 (sub_nonneg.mpr hlo.2.2.2)
    linarith
  · have e : a * (1 - t) * (1 - u) + b * t * (1 - u) + c * (1 - t) * u + d * t * u =
        hi - ((1 - t) * (1 - u) * (hi - a) + t * (1 - u) * (hi - b) +
          (1 - t) * u * (hi - c) + t * u * (hi - d)) := by ring
    rw [e]
    have := mul_nonneg w1 (sub_nonneg.mpr hhi.1)
    have := mul_nonneg w2 (sub_nonneg.mpr hhi.2.1)
    have := mul_nonneg w3 (sub_nonneg.mpr hhi.2.2.1)
    have := mul_nonneg w4 (sub_nonneg.mpr hhi.2.2.2)
    linarith

/-- In the enclosing cell the fractional position lies in `[0, 1]`. -/
theorem fraction_unit (coord : List K) (n : Nat) (q : K) (i : Nat)
    (hlen : coord.length = n) (hinc : StrictlyIncreasing coord) (hc : CellOf coord n q i) :
    0 ≤ spec_fraction q (coord.getD i 0) (coord.getD (i + 1) 0) ∧
    spec_fraction q (coord.getD i 0) (coord.getD (i + 1) 0) ≤ 1 := by
  obtain ⟨h1, h2, h3⟩ := hc
  have hlt : coord.getD i 0 < coord.getD (i + 1) 0 := hinc i (by omega)
  have hle : q ≤ coord.getD (i + 1) 0 := by
    rcases h3 with h | ⟨h, hi⟩
    · exact le_of_lt h
    · have : n - 1 = i + 1 := by omega
      rw [h, this]
  have hpos : 0 < coord.getD (i + 1) 0 - coord.getD i 0 := by linarith
  unfold spec_fraction
  constructor
  · exact div_nonneg (by linarith) (le_of_lt hpos)
  · rw [div_le_one hpos]
    linarith

/-- The bilinear formula of the library routine is the combination of the
specification. -/
theorem bilinear_formula_eq_spec (bx by_ bz : List K) (nx i j : Nat) (qx qy : K) :
    bilinear_formula bx by_ bz nx i j qx qy =
      spec_bilinear (z_node bz nx i j) (z_node bz nx (i + 1) j)
        (z_node bz nx i (j + 1)) (z_node bz nx (i + 1) (j + 1))
        (spec_fraction qx (bx.getD i 0) (bx.getD (i + 1) 0))
        (spec_fraction qy (by_.getD j 0) (by_.getD (j + 1) 0)) := by
  simp only [bilinear_formula, spec_bilinear, spec_fraction, z_node]
  ring

/-- At the node `x[k+1]` shared by the cells `k` and `k + 1` of the `x` axis, the
formula of the cell on the left and the formula of the cell on the right agree. -/
theorem bilinear_formula_x_edge (bx by_ bz : List K) (nx k j : Nat) (qy : K)
    (hinc : StrictlyIncreasing bx) (hk : k + 2 < bx.length) :
    bilinear_formula bx by_ bz nx k j (bx.getD (k + 1) 0) qy =
      bilinear_formula bx by_ bz nx (k + 1) j (bx.getD (k + 1) 0) qy := by
  have h1 : bx.getD k 0 < bx.getD (k + 1) 0 := hinc k (by omega)
  have h2 : bx.getD (k + 1) 0 < bx.getD (k + 1 + 1) 0 := hinc (k + 1) (by omega)
  have d1 : bx.getD (k + 1) 0 - bx.getD k 0 ≠ 0 := by
    intro h
    linarith
  simp only [bilinear_formula, IDX2D]
  simp only [div_self d1, sub_self, zero_div]
  ring

/-- At the node `y[k+1]` shared by the cells `k` and `k + 1` of the `y` axis, the
formula of the cell below and the formula of the cell above agree. -/
theorem bilinear_formula_y_edge (bx by_ bz : List K) (nx i k : Nat) (qx : K)
    (hinc : StrictlyIncreasing by_) (hk : k + 2 < by_.length) :
    bilinear_formula bx by_ bz nx i k qx (by_.getD (k + 1) 0) =
      bilinear_formula bx by_ bz nx i (k + 1) qx (by_.getD (k + 1) 0) := by
  have h1 : by_.getD k 0 < by_.getD (k + 1) 0 := hinc k (by omega)
  have d1 : by_.getD (k + 1) 0 - by_.getD k 0 ≠ 0 := by
    intro h
    linarith
  simp only [bilinear_formula, IDX2D]
  simp only [div_self d1, sub_self, zero_div]
  ring

theorem strictlyIncreasing_triple (a b c : K) (h1 : a < b) (h2 : b < c) :
    StrictlyIncreasing [a, b, c] := by
  intro i hi
  simp only [List.length_cons, List.length_nil] at hi
  have : i = 0 ∨ i = 1 := by omega
  rcases this with rfl | rfl
  · simpa using h1
  · simpa using h2

theorem demoCreated33_created : Created demoCreated33 :=
  (Create_created demoBlank [7, 7, 7] [7, 7, 7] [7, 7, 7, 7, 7, 7, 7, 7, 7] 3 3
    (by norm_num) (by norm_num) (by norm_num)).2.1

theorem demoGrid33_initialized :
    Initialized demoGrid33 [0, 1, 2] [0, 1, 2] [1, 4, 7, 2, 5, 8, 3, 6, 9] := by
  have h := (Initialize_establishes demoCreated33 [0, 1, 2] [0, 1, 2] demoTable33
    [7, 7, 7, 7, 7, 7, 7, 7, 7]
    { xsize := 3, ysize := 3, xmin := 0, xmax := 0, ymin := 0, ymax := 0,
      xarr := [0, 0, 0], yarr := [0, 0, 0], zarr := [0, 0, 0, 0, 0, 0, 0, 0, 0] }
    demoCreated33_created rfl rfl (by decide) (by decide)
    (accOK_alloc 3 (by norm_num)) (accOK_alloc 3 (by norm_num)) rfl rfl
    (strictlyIncreasing_triple 0 1 2 (by norm_num) (by norm_num))
    (strictlyIncreasing_triple 0 1 2 (by norm_num) (by norm_num))).2.1
  have hz : Interpolator2DInitialize_copy
      ({ xsize := 3, ysize := 3, xmin := 0, xmax := 0, ymin := 0, ymax := 0,
         xarr := [0, 0, 0], yarr := [0, 0, 0],
         zarr := [0, 0, 0, 0, 0, 0, 0, 0, 0] } : gsl_spline2d ℚ)
      demoTable33 demoCreated33.nx demoCreated33.ny [7, 7, 7, 7, 7, 7, 7, 7, 7] =
      [1, 4, 7, 2, 5, 8, 3, 6, 9] := by
    decide
  rw [hz] at h
  exact h

/-- C14: the interpolant is continuous across cell boundaries.  On a successfully
initialized grid, at an interior node `x[k+1]` (`0 < k+1 < nx-1`) the bilinear formula
of the cell on the left (`k`) and of the cell on the right (`k+1`) agree for every row of
cells and every `qy`, and likewise at an interior node `y[k+1]`; the value returned by
`Interpolator2DCalculate` for a query on such an edge is this common value. -/
theorem C14_continuous_across_cell_edges (s : interpolator_2d_t K) (bx by_ bz : List K)
    (hI : Initialized s bx by_ bz) :
    (∀ (k j : Nat) (qy : K), k + 2 < s.nx →
      bilinear_formula bx by_ bz s.nx k j (bx.getD (k + 1) 0) qy =
        bilinear_formula bx by_ bz s.nx (k + 1) j (bx.getD (k + 1) 0) qy) ∧
    (∀ (i k : Nat) (qx : K), k + 2 < s.ny →
      bilinear_formula bx by_ bz s.nx i k qx (by_.getD (k + 1) 0) =
        bilinear_formula bx by_ bz s.nx i (k + 1) qx (by_.getD (k + 1) 0)) ∧
    (∀ (k : Nat) (qy : K) (z0 : Option K), k + 2 < s.nx →
      by_.getD 0 0 ≤ qy → qy ≤ by_.getD (s.ny - 1) 0 →
      ∃ j, CellOf by_ s.ny qy j ∧
        (Interpolator2DCalculate s (bx.getD (k + 1) 0) qy z0).2.1 =
          some (bilinear_formula bx by_ bz s.nx k j (bx.getD (k + 1) 0) qy) ∧
        (Interpolator2DCalculate s (bx.getD (k + 1) 0) qy z0).2.1 =
          some (bilinear_formula bx by_ bz s.nx (k + 1) j (bx.getD (k + 1) 0) qy)) ∧
    (∀ (k : Nat) (qx : K) (z0 : Option K), k + 2 < s.ny →
      bx.getD 0 0 ≤ qx → qx ≤ bx.getD (s.nx - 1) 0 →
      ∃ i, CellOf bx s.nx qx i ∧
        (Interpolator2DCalculate s qx (by_.getD (k + 1) 0) z0).2.1 =
          some (bilinear_formula bx by_ bz s.nx i k qx (by_.getD (k + 1) 0)) ∧
        (Interpolator2DCalculate s qx (by_.getD (k + 1) 0) z0).2.1 =
          some (bilinear_formula bx by_ bz s.nx i (k + 1) qx (by_.getD (k + 1) 0))) := by
  have hxe : ∀ (k j : Nat) (qy : K), k + 2 < s.nx →
      bilinear_formula bx by_ bz s.nx k j (bx.getD (k + 1) 0) qy =
        bilinear_formula bx by_ bz s.nx (k + 1) j (bx.getD (k + 1) 0) qy := by
    intro k j qy hk
    exact bilinear_formula_x_edge bx by_ bz s.nx k j qy hI.x_inc (by rw [hI.x_len]; exact hk)
  have hye : ∀ (i k : Nat) (qx : K), k + 2 < s.ny →
      bilinear_formula bx by_ bz s.nx i k qx (by_.getD (k + 1) 0) =
        bilinear_formula bx by_ bz s.nx i (k + 1) qx (by_.getD (k + 1) 0) := by
    intro i k qx hk
    exact bilinear_formula_y_edge bx by_ bz s.nx i k qx hI.y_inc (by rw [hI.y_len]; exact hk)
  refine ⟨hxe, hye, ?_, ?_⟩
  · intro k qy z0 hk hy0 hy1
    have hx0 : bx.getD 0 0 ≤ bx.getD (k + 1) 0 :=
      increasing_le bx hI.x_inc 0 (k + 1) (by omega) (by rw [hI.x_len]; omega)
    have hx1 : bx.getD (k + 1) 0 ≤ bx.getD (s.nx - 1) 0 :=
      increasing_le bx hI.x_inc (k + 1) (s.nx - 1) (by omega) (by rw [hI.x_len]; omega)
    have hin : InRange bx by_ (bx.getD (k + 1) 0) qy := by
      unfold InRange
      rw [hI.x_len, hI.y_len]
      exact ⟨hx0, hx1, hy0, hy1⟩
    have hx := (axis_find_spec s.xacc bx s.nx (bx.getD (k + 1) 0) hI.nx_ge hI.x_len hI.x_inc
      hI.xacc_ok hx0 hx1).2.1
    have hy := (axis_find_spec s.yacc by_ s.ny qy hI.ny_ge hI.y_len hI.y_inc
      hI.yacc_ok hy0 hy1).2.1
    have hcell : CellOf bx s.nx (bx.getD (k + 1) 0) (k + 1) :=
      ⟨by omega, le_rfl, Or.inl (hI.x_inc (k + 1) (by rw [hI.x_len]; omega))⟩
    have hi : (axis_find s.xacc bx s.nx (bx.getD (k + 1) 0)).1 = k + 1 :=
      CellOf_unique bx s.nx _ _ _ hI.x_len hI.x_inc hx hcell
    refine ⟨_, hy, ?_, ?_⟩
    · rw [Calculate_of_inRange s bx by_ bz _ qy z0 hI hin, hi, hxe k _ qy hk]
    · rw [Calculate_of_inRange s bx by_ bz _ qy z0 hI hin, hi]
  · intro k qx z0 hk hx0 hx1
    have hy0 : by_.getD 0 0 ≤ by_.getD (k + 1) 0 :=
      increasing_le by_ hI.y_inc 0 (k + 1) (by omega) (by rw [hI.y_len]; omega)
    have hy1 : by_.getD (k + 1) 0 ≤ by_.getD (s.ny - 1) 0 :=
      increasing_le by_ hI.y_inc (k + 1) (s.ny - 1) (by omega) (by rw [hI.y_len]; omega)
    have hin : InRange bx by_ qx (by_.getD (k + 1) 0) := by
      unfold InRange
      rw [hI.x_len, hI.y_len]
      exact ⟨hx0, hx1, hy0, hy1⟩
    have hx := (axis_find_spec s.xacc bx s.nx qx hI.nx_ge hI.x_len hI.x_inc
      hI.xacc_ok hx0 hx1).2.1
    have hy := (axis_find_spec s.yacc by_ s.ny (by_.getD (k + 1) 0) hI.ny_ge hI.y_len
      hI.y_inc hI.yacc_ok hy0 hy1).2.1
    have hcell : CellOf by_ s.ny (by_.getD (k + 1) 0) (k + 1) :=
      ⟨by omega, le_rfl, Or.inl (hI.y_inc (k + 1) (by rw [hI.y_len]; omega))⟩
    have hj : (axis_find s.yacc by_ s.ny (by_.getD (k + 1) 0)).1 = k + 1 :=
      CellOf_unique by_ s.ny _ _ _ hI.y_len hI.y_inc hy hcell
    refine ⟨_, hx, ?_, ?_⟩
    · rw [Calculate_of_inRange s bx by_ bz qx _ z0 hI hin, hj, hye _ k qx hk]
    · rw [Calculate_of_inRange s bx by_ bz qx _ z0 hI hin, hj]

/-- Witness of C14: the interior node `x[1] = 1` of the 3×3 example grid, for the row of
cells `0` and `qy = 1/2`. -/
theorem C14_witness :
    bilinear_formula ([0, 1, 2] : List ℚ) [0, 1, 2] [1, 4, 7, 2, 5, 8, 3, 6, 9] demoGrid33.nx
        0 0 (([0, 1, 2] : List ℚ).getD (0 + 1) 0) (1 / 2) =
      bilinear_formula ([0, 1, 2] : List ℚ) [0, 1, 2] [1, 4, 7, 2, 5, 8, 3, 6, 9] demoGrid33.nx
        (0 + 1) 0 (([0, 1, 2] : List ℚ).getD (0 + 1) 0) (1 / 2) :=
  (C14_continuous_across_cell_edges demoGrid33 [0, 1, 2] [0, 1, 2]
    [1, 4, 7, 2, 5, 8, 3, 6, 9] demoGrid33_initialized).1 0 0 (1 / 2) (by decide)

/-- C18: on a successfully initialized grid and for an in-range query, the fractional
positions `tx`, `ty` in the enclosing cell lie in `[0, 1]`, and the value returned by
`Interpolator2DCalculate` lies between the minimum and the maximum of the four corner
values of that cell. -/
theorem C18_value_within_corner_values (s : interpolator_2d_t K) (bx by_ bz : List K)
    (qx qy : K) (z0 : Option K) (hI : Initialized s bx by_ bz)
    (h : InRange bx by_ qx qy) :
    ∃ i j, CellOf bx s.nx qx i ∧ CellOf by_ s.ny qy j ∧
      0 ≤ spec_fraction qx (bx.getD i 0) (bx.getD (i + 1) 0) ∧
      spec_fraction qx (bx.getD i 0) (bx.getD (i + 1) 0) ≤ 1 ∧
      0 ≤ spec_fraction qy (by_.getD j 0) (by_.getD (j + 1) 0) ∧
      spec_fraction qy (by_.getD j 0) (by_.getD (j + 1) 0) ≤ 1 ∧
      ∃ v, (Interpolator2DCalculate s qx qy z0).2.1 = some v ∧
        min (min (z_node bz s.nx i j) (z_node bz s.nx (i + 1) j))
            (min (z_node bz s.nx i (j + 1)) (z_node bz s.nx (i + 1) (j + 1))) ≤ v ∧
        v ≤ max (max (z_node bz s.nx i j) (z_node bz s.nx (i + 1) j))
            (max (z_node bz s.nx i (j + 1)) (z_node bz s.nx (i + 1) (j + 1))) := by
  have h' := h
  obtain ⟨h1, h2, h3, h4⟩ := h'
  rw [hI.x_len] at h2
  rw [hI.y_len] at h4
  have hx := (axis_find_spec s.xacc bx s.nx qx hI.nx_ge hI.x_len hI.x_inc hI.xacc_ok h1 h2).2.1
  have hy := (axis_find_spec s.yacc by_ s.ny qy hI.ny_ge hI.y_len hI.y_inc hI.yacc_ok h3 h4).2.1
  have ht := fraction_unit bx s.nx qx _ hI.x_len hI.x_inc hx
  have hu := fraction_unit by_ s.ny qy _ hI.y_len hI.y_inc hy
  have hval : (Interpolator2DCalculate s qx qy z0).2.1 = some
      (spec_bilinear
        (z_node bz s.nx (axis_find s.xacc bx s.nx qx).1 (axis_find s.yacc by_ s.ny qy).1)
        (z_node bz s.nx ((axis_find s.xacc bx s.nx qx).1 + 1) (axis_find s.yacc by_ s.ny qy).1)
        (z_node bz s.nx (axis_find s.xacc bx s.nx qx).1 ((axis_find s.yacc by_ s.ny qy).1 + 1))
        (z_node bz s.nx ((axis_find s.xacc bx s.nx qx).1 + 1)
          ((axis_find s.yacc by_ s.ny qy).1 + 1))
        (spec_fraction qx (bx.getD (axis_find s.xacc bx s.nx qx).1 0)
          (bx.getD ((axis_find s.xacc bx s.nx qx).1 + 1) 0))
        (spec_fraction qy (by_.getD (axis_find s.yacc by_ s.ny qy).1 0)
          (by_.getD ((axis_find s.yacc by_ s.ny qy).1 + 1) 0))) := by
    rw [Calculate_of_inRange s bx by_ bz qx qy z0 hI h, bilinear_formula_eq_spec]
  have hb := bilinear_between _ _ _ _ _ _ _ _ ht.1 ht.2 hu.1 hu.2
    (⟨le_trans (min_le_left _ _) (min_le_left _ _),
      le_trans (min_le_left _ _) (min_le_right _ _),
      le_trans (min_le_right _ _) (min_le_left _ _),
      le_trans (min_le_right _ _) (min_le_right _ _)⟩ :
      min (min (z_node bz s.nx (axis_find s.xacc bx s.nx qx).1 (axis_find s.yacc by_ s.ny qy).1)
          (z_node bz s.nx ((axis_find s.xacc bx s.nx qx).1 + 1)
            (axis_find s.yacc by_ s.ny qy).1))
        (min (z_node bz s.nx (axis_find s.xacc bx s.nx qx).1
            ((axis_find s.yacc by_ s.ny qy).1 + 1))
          (z_node bz s.nx ((axis_find s.xacc bx s.nx qx).1 + 1)
            ((axis_find s.yacc by_ s.ny qy).1 + 1))) ≤ _ ∧ _ ∧ _ ∧ _)
    (⟨le_trans (le_max_left _ _) (le_max_left _ _),
      le_trans (le_max_right _ _) (le_max_left _ _),
      le_trans (le_max_left _ _) (le_max_right _ _),
      le_trans (le_max_right _ _) (le_max_right _ _)⟩ :
      _ ≤ max (max (z_node bz s.nx (axis_find s.xacc bx s.nx qx).1
            (axis_find s.yacc by_ s.ny qy).1)
          (z_node bz s.nx ((axis_find s.xacc bx s.nx qx).1 + 1)
            (axis_find s.yacc by_ s.ny qy).1))
        (max (z_node bz s.nx (axis_find s.xacc bx s.nx qx).1
            ((axis_find s.yacc by_ s.ny qy).1 + 1))
          (z_node bz s.nx ((axis_find s.xacc bx s.nx qx).1 + 1)
            ((axis_find s.yacc by_ s.ny qy).1 + 1))) ∧ _ ∧ _ ∧ _)
  exact ⟨_, _, hx, hy, ht.1, ht.2, hu.1, hu.2, _, hval, hb.1, hb.2⟩

/-- Witness of C18: the query `(1/2, 3/2)` on the 3×3 example grid. -/
theorem C18_witness :
    ∃ i j, CellOf ([0, 1, 2] : List ℚ) demoGrid33.nx (1 / 2) i ∧
      CellOf ([0, 1, 2] : List ℚ) demoGrid33.ny (3 / 2) j ∧
      0 ≤ spec_fraction (1 / 2) (([0, 1, 2] : List ℚ).getD i 0)
        (([0, 1, 2] : List ℚ).getD (i + 1) 0) ∧
      spec_fraction (1 / 2) (([0, 1, 2] : List ℚ).getD i 0)
        (([0, 1, 2] : List ℚ).getD (i + 1) 0) ≤ 1 ∧
      0 ≤ spec_fraction (3 / 2) (([0, 1, 2] : List ℚ).getD j 0)
        (([0, 1, 2] : List ℚ).getD (j + 1) 0) ∧
      spec_fraction (3 / 2) (([0, 1, 2] : List ℚ).getD j 0)
        (([0, 1, 2] : List ℚ).getD (j + 1) 0) ≤ 1 ∧
      ∃ v, (Interpolator2DCalculate demoGrid33 (1 / 2) (3 / 2) none).2.1 = some v ∧
        min (min (z_node [1, 4, 7, 2, 5, 8, 3, 6, 9] demoGrid33.nx i j)
              (z_node [1, 4, 7, 2, 5, 8, 3, 6, 9] demoGrid33.nx (i + 1) j))
            (min (z_node [1, 4, 7, 2, 5, 8, 3, 6, 9] demoGrid33.nx i (j + 1))
              (z_node [1, 4, 7, 2, 5, 8, 3, 6, 9] demoGrid33.nx (i + 1) (j + 1))) ≤ v ∧
        v ≤ max (max (z_node [1, 4, 7, 2, 5, 8, 3, 6, 9] demoGrid33.nx i j)
              (z_node [1, 4, 7, 2, 5, 8, 3, 6, 9] demoGrid33.nx (i + 1) j))
            (max (z_node [1, 4, 7, 2, 5, 8, 3, 6, 9] demoGrid33.nx i (j + 1))
              (z_node [1, 4, 7, 2, 5, 8, 3, 6, 9] demoGrid33.nx (i + 1) (j + 1))) :=
  C18_value_within_corner_values demoGrid33 [0, 1, 2] [0, 1, 2] [1, 4, 7, 2, 5, 8, 3, 6, 9]
    (1 / 2) (3 / 2) none demoGrid33_initialized (by norm_num [InRange])

/-- C17 (as amended): every successful `Interpolator2DInitialize` on a created grid with
at least two nodes per axis, including a re-initialization after earlier calculate calls,
leaves both axis accelerators exactly as they were before the call (so they are in the
initial state only if they were, as right after `Interpolator2DCreate`); the cached
indices remain valid cell indices, and the first query after the initialization returns
the flag and the value of a full (cold) binary search on the new data. -/
theorem C17_initialize_leaves_accelerators_unchanged (s : interpolator_2d_t K)
    (xs ys : List K) (tbl : List (List K)) (hs : Created s)
    (hnx : 2 ≤ s.nx) (hny : 2 ≤ s.ny)
    (hxa : AccOK s.xacc s.nx) (hya : AccOK s.yacc s.ny)
    (hxs : xs.length = s.nx) (hys : ys.length = s.ny)
    (hxi : StrictlyIncreasing xs) (hyi : StrictlyIncreasing ys) :
    (Interpolator2DInitialize s xs ys tbl).1 = true ∧
    (Interpolator2DInitialize s xs ys tbl).2.xacc = s.xacc ∧
    (Interpolator2DInitialize s xs ys tbl).2.yacc = s.yacc ∧
    AccOK (Interpolator2DInitialize s xs ys tbl).2.xacc
      (Interpolator2DInitialize s xs ys tbl).2.nx ∧
    AccOK (Interpolator2DInitialize s xs ys tbl).2.yacc
      (Interpolator2DInitialize s xs ys tbl).2.ny ∧
    (s.xacc = some gsl_interp_accel_alloc →
      (Interpolator2DInitialize s xs ys tbl).2.xacc = some gsl_interp_accel_alloc) ∧
    (s.yacc = some gsl_interp_accel_alloc →
      (Interpolator2DInitialize s xs ys tbl).2.yacc = some gsl_interp_accel_alloc) ∧
    ∃ bz, (Interpolator2DInitialize s xs ys tbl).2.z = some bz ∧
      ∀ (q : K × K) (z0 : Option K),
        ((Interpolator2DCalculate (Interpolator2DInitialize s xs ys tbl).2 q.1 q.2 z0).1,
          (Interpolator2DCalculate (Interpolator2DInitialize s xs ys tbl).2 q.1 q.2 z0).2.1) =
          coldCalculate xs ys bz z0 q := by
  obtain ⟨bz, hz, _⟩ := hs.z_buf
  obtain ⟨sp, hsp, _⟩ := hs.spline_obj
  obtain ⟨h1, hI, h3, h4, h5, h6⟩ := Initialize_establishes s xs ys tbl bz sp hs hz hsp
    hnx hny hxa hya hxs hys hxi hyi
  refine ⟨h1, h5, h6, hI.xacc_ok, hI.yacc_ok, ?_, ?_, _, hI.hz, ?_⟩
  · intro h
    rw [h5, h]
  · intro h
    rw [h6, h]
  · intro q z0
    exact Calculate_cold _ xs ys _ q z0 hI

/-- Witness of C17 (as amended): the created example grid initialized with the axes
`[0, 1]`, `[0, 1]`. -/
theorem C17_witness :
    (Interpolator2DInitialize demoCreated [0, 1] [0, 1] demoTable).1 = true ∧
    (Interpolator2DInitialize demoCreated [0, 1] [0, 1] demoTable).2.xacc = demoCreated.xacc ∧
    (Interpolator2DInitialize demoCreated [0, 1] [0, 1] demoTable).2.yacc = demoCreated.yacc :=
  ⟨(C17_initialize_leaves_accelerators_unchanged demoCreated [0, 1] [0, 1] demoTable
      demoCreated_created (by decide) (by decide) demoCreated_accOK.1 demoCreated_accOK.2
      rfl rfl (strictlyIncreasing_pair 0 1 (by norm_num))
      (strictlyIncreasing_pair 0 1 (by norm_num))).1,
   (C17_initialize_leaves_accelerators_unchanged demoCreated [0, 1] [0, 1] demoTable
      demoCreated_created (by decide) (by decide) demoCreated_accOK.1 demoCreated_accOK.2
      rfl rfl (strictlyIncreasing_pair 0 1 (by norm_num))
      (strictlyIncreasing_pair 0 1 (by norm_num))).2.1,
   (C17_initialize_leaves_accelerators_unchanged demoCreated [0, 1] [0, 1] demoTable
      demoCreated_created (by decide) (by decide) demoCreated_accOK.1 demoCreated_accOK.2
      rfl rfl (strictlyIncreasing_pair 0 1 (by norm_num))
      (strictlyIncreasing_pair 0 1 (by norm_num))).2.2.1⟩

/-- Counterexample to C17 as stated: on the 3×3 example grid (`x = y = [0, 1, 2]`) the
query `(3/2, 3/2)` leaves the cached index `1` in the `x` accelerator; the following
`Interpolator2DInitialize` succeeds and the cached index is still `1`, not the initial
index `0` of a new accelerator. -/
theorem C17_counterexample :
    gsl_interp_accel_alloc.cache = 0 ∧
    (Interpolator2DInitialize (Interpolator2DCalculate demoGrid33 (3 / 2) (3 / 2) none).2.2
      [0, 1, 2] [0, 1, 2] demoTable33).1 = true ∧
    (∃ a, (Interpolator2DInitialize (Interpolator2DCalculate demoGrid33 (3 / 2) (3 / 2)
        none).2.2 [0, 1, 2] [0, 1, 2] demoTable33).2.xacc = some a ∧ a.cache = 1) ∧
    (Interpolator2DInitialize (Interpolator2DCalculate demoGrid33 (3 / 2) (3 / 2) none).2.2
      [0, 1, 2] [0, 1, 2] demoTable33).2.xacc ≠ some gsl_interp_accel_alloc := by
  have hI := demoGrid33_initialized
  have hnx : demoGrid33.nx = 3 := rfl
  have hny : demoGrid33.ny = 3 := rfl
  have hacc : demoGrid33.xacc = some gsl_interp_accel_alloc := rfl
  have hin : InRange ([0, 1, 2] : List ℚ) [0, 1, 2] (3 / 2) (3 / 2) := by
    norm_num [InRange]
  have hP := Calculate_preserves demoGrid33 _ _ _ (3 / 2) (3 / 2) none hI
  have hcalc := Calculate_of_inRange demoGrid33 _ _ _ (3 / 2) (3 / 2) none hI hin
  -- the cached index after the query
  have hfind := accel_find_cell gsl_interp_accel_alloc ([0, 1, 2] : List ℚ) 3 (3 / 2)
    (by decide) (by norm_num) (by norm_num)
  have hcell : CellOf ([0, 1, 2] : List ℚ) 3 (3 / 2) 1 := by
    refine ⟨by norm_num, by norm_num, Or.inl ?_⟩
    norm_num
  have hidx : (gsl_interp_accel_find gsl_interp_accel_alloc ([0, 1, 2] : List ℚ) 3 (3 / 2)).1
      = 1 :=
    CellOf_unique ([0, 1, 2] : List ℚ) 3 (3 / 2) _ _ rfl
      (strictlyIncreasing_triple 0 1 2 (by norm_num) (by norm_num)) hfind.1 hcell
  have hx1 : (Interpolator2DCalculate demoGrid33 (3 / 2) (3 / 2) none).2.2.xacc =
      some (gsl_interp_accel_find gsl_interp_accel_alloc ([0, 1, 2] : List ℚ) 3 (3 / 2)).2 := by
    rw [hcalc, hacc, hnx]
    rfl
  have hdims : (Interpolator2DCalculate demoGrid33 (3 / 2) (3 / 2) none).2.2.nx = 3 ∧
      (Interpolator2DCalculate demoGrid33 (3 / 2) (3 / 2) none).2.2.ny = 3 := by
    rw [hcalc]
    exact ⟨hnx, hny⟩
  obtain ⟨h1, _, _, _, h5, _⟩ := Initialize_establishes
    (Interpolator2DCalculate demoGrid33 (3 / 2) (3 / 2) none).2.2
    [0, 1, 2] [0, 1, 2] demoTable33 _ _ (Initialized_created _ _ _ _ hP) hP.hz hP.hspline
    hP.nx_ge hP.ny_ge hP.xacc_ok hP.yacc_ok (by rw [hdims.1]; rfl) (by rw [hdims.2]; rfl)
    (strictlyIncreasing_triple 0 1 2 (by norm_num) (by norm_num))
    (strictlyIncreasing_triple 0 1 2 (by norm_num) (by norm_num))
  refine ⟨rfl, h1, ⟨_, h5.trans hx1, ?_⟩, ?_⟩
  · rw [hfind.2, hidx]
  · rw [h5, hx1]
    intro h
    have hc := congrArg (fun o => o.map gsl_interp_accel.cache) h
    simp only [Option.map_some'] at hc
    rw [hfind.2, hidx] at hc
    exact absurd hc (by decide)

/-! ## The end-to-end scenario -/

/-- The four samples of `_Function1` at the corners of `[-p, p] × [-p, p]` cancel. -/
theorem Function1_corner_sum (exp : K → K) (p : K) :
    _Function1 exp (-p) (-p) + _Function1 exp p (-p) + _Function1 exp (-p) p +
      _Function1 exp p p = 0 := by
  unfold _Function1
  have e1 : -(-p * -p) - -p * -p = -(p * p) - p * p := by ring
  have e2 : -(p * p) - -p * -p = -(p * p) - p * p := by ring
  have e3 : -(-p * -p) - p * p = -(p * p) - p * p := by ring
  rw [e1, e2, e3]
  ring

/-- The scenario on a created 2×2 grid with the axes `[-p, p]`, `[-p, p]` and the table
sampled from `_Function1`: the initialization succeeds and the query at the midpoint
`(0, 0)` succeeds with the value `0`. -/
theorem scenario_midpoint (s : interpolator_2d_t K) (exp : K → K) (p : K) (z0 : Option K)
    (hs : Created s) (hnx : s.nx = 2) (hny : s.ny = 2)
    (hxa : AccOK s.xacc 2) (hya : AccOK s.yacc 2) (hp : 0 < p) :
    (Interpolator2DInitialize s [-p, p] [-p, p]
      [[_Function1 exp (-p) (-p), _Function1 exp p (-p)],
       [_Function1 exp (-p) p, _Function1 exp p p]]).1 = true ∧
    (Interpolator2DCalculate (Interpolator2DInitialize s [-p, p] [-p, p]
      [[_Function1 exp (-p) (-p), _Function1 exp p (-p)],
       [_Function1 exp (-p) p, _Function1 exp p p]]).2 0 0 z0).1 = true ∧
    (Interpolator2DCalculate (Interpolator2DInitialize s [-p, p] [-p, p]
      [[_Function1 exp (-p) (-p), _Function1 exp p (-p)],
       [_Function1 exp (-p) p, _Function1 exp p p]]).2 0 0 z0).2.1 = some 0 := by
  obtain ⟨bz, hz, hzl⟩ := hs.z_buf
  obtain ⟨sp, hsp, hsx, hsy, _, _, _⟩ := hs.spline_obj
  have hinc : StrictlyIncreasing [-p, p] := strictlyIncreasing_pair (-p) p (by linarith)
  obtain ⟨h1, hI, _, _, _, _⟩ := Initialize_establishes s [-p, p] [-p, p]
    [[_Function1 exp (-p) (-p), _Function1 exp p (-p)],
     [_Function1 exp (-p) p, _Function1 exp p p]] bz sp hs hz hsp
    (by omega) (by omega) (by rw [hnx]; exact hxa) (by rw [hny]; exact hya)
    (by rw [hnx]; rfl) (by rw [hny]; rfl) hinc hinc
  rw [hnx] at hsx
  rw [hny] at hsy
  rw [hnx, hny] at hI hzl
  have hc := Calculate_single_cell _ (-p) p (-p) p _ 0 0 z0 hI (by linarith) (by linarith)
    (by linarith) (by linarith)
  refine ⟨h1, hc.1, ?_⟩
  rw [hc.2, bilinear_formula_eq_spec]
  have g : ∀ a b, a < 2 → b < 2 →
      z_node (Interpolator2DInitialize_copy sp
        [[_Function1 exp (-p) (-p), _Function1 exp p (-p)],
         [_Function1 exp (-p) p, _Function1 exp p p]] 2 2 bz) 2 a b =
      gsl_matrix_get
        [[_Function1 exp (-p) (-p), _Function1 exp p (-p)],
         [_Function1 exp (-p) p, _Function1 exp p p]] a b := by
    intro a b ha hb
    unfold z_node
    rw [copy_getD sp _ 2 2 bz hsx hsy hzl a b ha hb, if_pos ⟨ha, hb⟩]
  rw [g 0 0 (by norm_num) (by norm_num), g (0 + 1) 0 (by norm_num) (by norm_num),
    g 0 (0 + 1) (by norm_num) (by norm_num), g (0 + 1) (0 + 1) (by norm_num) (by norm_num)]
  have hsum := Function1_corner_sum exp p
  have hp2 : p - -p ≠ 0 := by
    intro h
    linarith
  have hfrac : spec_fraction (0 : K) (-p) p = 1 / 2 := by
    unfold spec_fraction
    field_simp
    ring
  simp only [gsl_matrix_get, List.getD_cons_zero, List.getD_cons_succ, zero_add,
    spec_bilinear, hfrac, Option.some.injEq]
  have e : _Function1 exp (-p) (-p) * (1 - 1 / 2) * (1 - 1 / 2) +
      _Function1 exp (-p) p * (1 / 2) * (1 - 1 / 2) +
      _Function1 exp p (-p) * (1 - 1 / 2) * (1 / 2) +
      _Function1 exp p p * (1 / 2) * (1 / 2) =
      (_Function1 exp (-p) (-p) + _Function1 exp p (-p) + _Function1 exp (-p) p +
        _Function1 exp p p) / 4 := by ring
  rw [e, hsum, zero_div]

/-- C13: on the grid `x = y = [-π, π]` (two points each) with the values sampled from
`f(lon, lat) = lon · exp(-lon² - lat²)` at the four nodes (laid out as the tests fill the
table), created from any instance with any successful allocations, the initialization
succeeds and `Interpolator2DCalculate` at the midpoint `(0, 0)` succeeds and returns a
value `v` with `|v - 0| < 1e-2` (in exact real arithmetic `v = 0`). -/
theorem C13_midpoint_of_pi_grid (self : interpolator_2d_t ℝ) (gx gy gz : List ℝ)
    (z0 : Option ℝ) :
    (Interpolator2DCreate self (some gx) (some gy) (some gz) 2 2).1 = true ∧
    (Interpolator2DInitialize (Interpolator2DCreate self (some gx) (some gy) (some gz) 2 2).2
      [-Real.pi, Real.pi] [-Real.pi, Real.pi]
      [[_Function1 Real.exp (-Real.pi) (-Real.pi), _Function1 Real.exp Real.pi (-Real.pi)],
       [_Function1 Real.exp (-Real.pi) Real.pi, _Function1 Real.exp Real.pi Real.pi]]).1
      = true ∧
    (Interpolator2DCalculate
      (Interpolator2DInitialize (Interpolator2DCreate self (some gx) (some gy) (some gz) 2 2).2
        [-Real.pi, Real.pi] [-Real.pi, Real.pi]
        [[_Function1 Real.exp (-Real.pi) (-Real.pi), _Function1 Real.exp Real.pi (-Real.pi)],
         [_Function1 Real.exp (-Real.pi) Real.pi, _Function1 Real.exp Real.pi Real.pi]]).2
      0 0 z0).1 = true ∧
    ∃ v : ℝ, (Interpolator2DCalculate
      (Interpolator2DInitialize (Interpolator2DCreate self (some gx) (some gy) (some gz) 2 2).2
        [-Real.pi, Real.pi] [-Real.pi, Real.pi]
        [[_Function1 Real.exp (-Real.pi) (-Real.pi), _Function1 Real.exp Real.pi (-Real.pi)],
         [_Function1 Real.exp (-Real.pi) Real.pi, _Function1 Real.exp Real.pi Real.pi]]).2
      0 0 z0).2.1 = some v ∧ |v - 0| < 1 / 100 := by
  obtain ⟨c1, c2, c3, c4, c5, c6⟩ := Create_created self gx gy gz 2 2 (by norm_num)
    (by norm_num) (by norm_num)
  have h := scenario_midpoint (Interpolator2DCreate self (some gx) (some gy) (some gz) 2 2).2
    Real.exp Real.pi z0 c2 c3 c4 (by rw [c5]; exact accOK_alloc 2 le_rfl)
    (by rw [c6]; exact accOK_alloc 2 le_rfl) Real.pi_pos
  refine ⟨c1, h.1, h.2.1, 0, h.2.2, ?_⟩
  norm_num

/-! ## Re-initialization of a non-square grid -/

/-- On an initialized grid, an in-range query whose enclosing cells are `i` and `j`
succeeds with the bilinear formula on the cell `(i, j)`. -/
theorem Calculate_of_cells (s : interpolator_2d_t K) (bx by_ bz : List K) (qx qy : K)
    (z0 : Option K) (i j : Nat) (hI : Initialized s bx by_ bz)
    (h : InRange bx by_ qx qy) (hi : CellOf bx s.nx qx i) (hj : CellOf by_ s.ny qy j) :
    (Interpolator2DCalculate s qx qy z0).1 = true ∧
    (Interpolator2DCalculate s qx qy z0).2.1 =
      some (bilinear_formula bx by_ bz s.nx i j qx qy) := by
  have h' := h
  obtain ⟨h1, h2, h3, h4⟩ := h'
  rw [hI.x_len] at h2
  rw [hI.y_len] at h4
  have hx := (axis_find_spec s.xacc bx s.nx qx hI.nx_ge hI.x_len hI.x_inc hI.xacc_ok h1 h2).2.1
  have hy := (axis_find_spec s.yacc by_ s.ny qy hI.ny_ge hI.y_len hI.y_inc hI.yacc_ok h3 h4).2.1
  rw [Calculate_of_inRange s bx by_ bz qx qy z0 hI h,
    CellOf_unique bx s.nx qx _ _ hI.x_len hI.x_inc hx hi,
    CellOf_unique by_ s.ny qy _ _ hI.y_len hI.y_inc hy hj]
  exact ⟨rfl, rfl⟩

theorem demoCreated23_created : Created demoCreated23 :=
  (Create_created demoBlank [7, 7] [7, 7, 7] [7, 7, 7, 7, 7, 7] 2 3 (by norm_num)
    (by norm_num) (by norm_num)).2.1

theorem demoCreated23b_created : Created demoCreated23b :=
  (Create_created demoBlank [8, 8] [8, 8, 8] [8, 8, 8, 8, 8, 8] 2 3 (by norm_num)
    (by norm_num) (by norm_num)).2.1

/-- The 2×3 grid initialized with dataset `A` and then with dataset `B`. -/
theorem demoReinit23_initialized :
    Initialized
      (Interpolator2DInitialize
        (Interpolator2DInitialize demoCreated23 [0, 1] [0, 1, 2] demoTable23A).2
        [0, 1] [0, 1, 2] demoTable23).2
      [0, 1] [0, 1, 2] [10, 30, 20, 40, 7, 7] := by
  have hx := strictlyIncreasing_pair (0 : ℚ) 1 (by norm_num)
  have hy := strictlyIncreasing_triple (0 : ℚ) 1 2 (by norm_num) (by norm_num)
  obtain ⟨_, hA, hAnx, hAny, _, _⟩ := Initialize_establishes demoCreated23 [0, 1] [0, 1, 2]
    demoTable23A [7, 7, 7, 7, 7, 7]
    { xsize := 2, ysize := 3, xmin := 0, xmax := 0, ymin := 0, ymax := 0,
      xarr := [0, 0], yarr := [0, 0, 0], zarr := [0, 0, 0, 0, 0, 0] }
    demoCreated23_created rfl rfl (by decide) (by decide)
    (accOK_alloc 2 le_rfl) (accOK_alloc 3 (by norm_num)) rfl rfl hx hy
  obtain ⟨_, hB, _, _, _, _⟩ := Initialize_establishes
    (Interpolator2DInitialize demoCreated23 [0, 1] [0, 1, 2] demoTable23A).2
    [0, 1] [0, 1, 2] demoTable23 _ _ (Initialized_created _ _ _ _ hA) hA.hz hA.hspline
    hA.nx_ge hA.ny_ge hA.xacc_ok hA.yacc_ok (by rw [hAnx]; rfl) (by rw [hAny]; rfl) hx hy
  have hz : (Interpolator2DInitialize
      (Interpolator2DInitialize demoCreated23 [0, 1] [0, 1, 2] demoTable23A).2
      [0, 1] [0, 1, 2] demoTable23).2.z = some [10, 30, 20, 40, 7, 7] := by decide
  have := Option.some.inj (hB.hz.symm.trans hz)
  rw [this] at hB
  exact hB

/-- The other created 2×3 grid initialized with dataset `B` only. -/
theorem demoFresh23_initialized :
    Initialized (Interpolator2DInitialize demoCreated23b [0, 1] [0, 1, 2] demoTable23).2
      [0, 1] [0, 1, 2] [10, 30, 20, 40, 8, 8] := by
  have hx := strictlyIncreasing_pair (0 : ℚ) 1 (by norm_num)
  have hy := strictlyIncreasing_triple (0 : ℚ) 1 2 (by norm_num) (by norm_num)
  obtain ⟨_, hB, _, _, _, _⟩ := Initialize_establishes demoCreated23b [0, 1] [0, 1, 2]
    demoTable23 [8, 8, 8, 8, 8, 8]
    { xsize := 2, ysize := 3, xmin := 0, xmax := 0, ymin := 0, ymax := 0,
      xarr := [0, 0], yarr := [0, 0, 0], zarr := [0, 0, 0, 0, 0, 0] }
    demoCreated23b_created rfl rfl (by decide) (by decide)
    (accOK_alloc 2 le_rfl) (accOK_alloc 3 (by norm_num)) rfl rfl hx hy
  have hz : (Interpolator2DInitialize demoCreated23b [0, 1] [0, 1, 2] demoTable23).2.z =
      some [10, 30, 20, 40, 8, 8] := by decide
  have := Option.some.inj (hB.hz.symm.trans hz)
  rw [this] at hB
  exact hB

/-- C6 (behaviour of the code at the failing input): on a 2×3 grid (`nx = 2`, `ny = 3`)
whose buffers held the leftover value `7` at creation, `Interpolator2DInitialize` with
dataset `A` and then with dataset `B` both succeed and leave `z = [10, 30, 20, 40, 7, 7]`;
on a freshly created 2×3 grid whose buffers held `8`, `Interpolator2DInitialize` with `B`
only succeeds and leaves `z = [10, 30, 20, 40, 8, 8]`.  The query at the node `(1, 2)`
succeeds on both and returns `7` on the re-initialized grid and `8` on the fresh one:
the nodes at y-index `2` are written by neither initialization. -/
theorem C6_nonsquare_reinit_differs_from_fresh :
    Created demoCreated23 ∧ Created demoCreated23b ∧
    demoCreated23.nx = 2 ∧ demoCreated23.ny = 3 ∧
    demoCreated23b.nx = 2 ∧ demoCreated23b.ny = 3 ∧
    (Interpolator2DInitialize demoCreated23 [0, 1] [0, 1, 2] demoTable23A).1 = true ∧
    (Interpolator2DInitialize
      (Interpolator2DInitialize demoCreated23 [0, 1] [0, 1, 2] demoTable23A).2
      [0, 1] [0, 1, 2] demoTable23).1 = true ∧
    (Interpolator2DInitialize demoCreated23b [0, 1] [0, 1, 2] demoTable23).1 = true ∧
    (Interpolator2DInitialize
      (Interpolator2DInitialize demoCreated23 [0, 1] [0, 1, 2] demoTable23A).2
      [0, 1] [0, 1, 2] demoTable23).2.z = some [10, 30, 20, 40, 7, 7] ∧
    (Interpolator2DInitialize demoCreated23b [0, 1] [0, 1, 2] demoTable23).2.z =
      some [10, 30, 20, 40, 8, 8] ∧
    (Interpolator2DCalculate
      (Interpolator2DInitialize
        (Interpolator2DInitialize demoCreated23 [0, 1] [0, 1, 2] demoTable23A).2
        [0, 1] [0, 1, 2] demoTable23).2 1 2 none).1 = true ∧
    (Interpolator2DCalculate
      (Interpolator2DInitialize
        (Interpolator2DInitialize demoCreated23 [0, 1] [0, 1, 2] demoTable23A).2
        [0, 1] [0, 1, 2] demoTable23).2 1 2 none).2.1 = some 7 ∧
    (Interpolator2DCalculate
      (Interpolator2DInitialize demoCreated23b [0, 1] [0, 1, 2] demoTable23).2 1 2 none).1
      = true ∧
    (Interpolator2DCalculate
      (Interpolator2DInitialize demoCreated23b [0, 1] [0, 1, 2] demoTable23).2 1 2 none).2.1
      = some 8 := by
  have hin : InRange ([0, 1] : List ℚ) [0, 1, 2] 1 2 := by
    norm_num [InRange]
  have hR := demoReinit23_initialized
  have hF := demoFresh23_initialized
  have hRnx := hR.x_len
  have hRny := hR.y_len
  have hFnx := hF.x_len
  have hFny := hF.y_len
  simp only [List.length_cons, List.length_nil] at hRnx hRny hFnx hFny
  have cx : CellOf ([0, 1] : List ℚ) 2 1 0 := by
    refine ⟨le_rfl, by norm_num, Or.inr ⟨by norm_num, rfl⟩⟩
  have cy : CellOf ([0, 1, 2] : List ℚ) 3 2 1 := by
    refine ⟨le_rfl, by norm_num, Or.inr ⟨by norm_num, rfl⟩⟩
  have vR := Calculate_of_cells _ _ _ _ 1 2 none 0 1 hR hin (by rw [← hRnx]; exact cx)
    (by rw [← hRny]; exact cy)
  have vF := Calculate_of_cells _ _ _ _ 1 2 none 0 1 hF hin (by rw [← hFnx]; exact cx)
    (by rw [← hFny]; exact cy)
  refine ⟨demoCreated23_created, demoCreated23b_created, rfl, rfl, rfl, rfl, by decide,
    by decide, by decide, hR.hz, hF.hz, vR.1, ?_, vF.1, ?_⟩
  · rw [vR.2, ← hRnx]
    norm_num [bilinear_formula, IDX2D]
  · rw [vF.2, ← hFnx]
    norm_num [bilinear_formula, IDX2D]

end Interp2D
